import Mathlib

/-!
Verification of the BabyFoodTrack storage layer.

Shallow embedding of the persistence core of the repository:
`src/db.js` (class BabyFoodDB over IndexedDB), the migration utility
(class StorageMigration), and the storage-relevant parts of
`src/app.js` (class FeedingTracker: backend selection, in-memory
mirror, CSV import, medicine transitions, localStorage fallback).

Modelling conventions:
* Time-valued fields (ISO 8601 strings or epoch numbers in the
  JavaScript source) are modelled as epoch milliseconds (`Int`).
  A JavaScript value on which `new Date(v)` yields an Invalid Date is
  modelled as `none`; `Date.prototype.toISOString` throws on such a
  value, which is where the corresponding `Except.error` appears.
* `localStorage` is modelled as a record with one field per key the
  program uses; a stored collection value (a JSON array text) is
  modelled by `FlatVal`, which distinguishes the empty string, the
  exact empty-array literal, a parseable array, and unparseable text.
* JavaScript numbers that the program treats as fractional (feeding
  intervals) are modelled as `Rat`; all arithmetic the claims touch is
  exact at these values.
* Failure injection: platform failures the source reacts to
  (IndexedDB open rejection, `localStorage.setItem` throwing during
  backup creation) are modelled by explicit boolean environment flags.
-/

/-- Digits of a two-digit zero-padded decimal field, as in the
fixed-width date fields of `Date.prototype.toISOString`. -/
def pad2 (n : Nat) : String :=
  if n < 10 then "0" ++ toString n else toString n

/-- Four-digit zero-padded year field of `Date.prototype.toISOString`
(valid for years 0..9999, the range used by every theorem below). -/
def pad4 (n : Nat) : String :=
  if n < 10 then "000" ++ toString n
  else if n < 100 then "00" ++ toString n
  else if n < 1000 then "0" ++ toString n
  else toString n

/-- Proleptic Gregorian civil date from a count of days since
1970-01-01, for nonnegative epochs (Howard Hinnant's algorithm,
restricted to the era range the theorems use). Returns
(year, month, day). This is the calendar computation performed by
`Date.prototype.toISOString` for the date components. -/
def civilFromDays (days : Nat) : Nat × Nat × Nat :=
  let z := days + 719468
  let era := z / 146097
  let doe := z % 146097
  let yoe := (doe - doe / 1460 + doe / 36524 - doe / 146096) / 365
  let y := yoe + era * 400
  let doy := doe - (365 * yoe + yoe / 4 - yoe / 100)
  let mp := (5 * doy + 2) / 153
  let d := doy - (153 * mp + 2) / 5 + 1
  let m := if mp < 10 then mp + 3 else mp - 9
  (if m ≤ 2 then y + 1 else y, m, d)

/-- The `YYYY-MM-DD` prefix of `new Date(t).toISOString()` for an
instant `t` in epoch milliseconds (nonnegative instants; theorems
carry the range hypotheses). This is the computation
`new Date(x).toISOString().split('T')[0]` of `src/db.js`. -/
def isoDateOfMillis (t : Int) : String :=
  let days := t.toNat / 86400000
  let c := civilFromDays days
  pad4 c.1 ++ "-" ++ pad2 c.2.1 ++ "-" ++ pad2 c.2.2

/-- Substring of the first `n` characters (`.substring(0, n)` in the
source); defined over the character list so that it reduces well. -/
def strTake (s : String) (n : Nat) : String :=
  String.mk (s.toList.take n)

/-- JavaScript string-or-default (`a || b`) for an optional string:
a missing value or the empty string falls back to the default. -/
def jsOrS (a : Option String) (b : String) : String :=
  match a with
  | some s => if s.isEmpty then b else s
  | none => b

/-- JavaScript number-or-default (`a || b`) for an optional rational:
a missing value or `0` falls back to the default. -/
def jsOrQ (a : Option Rat) (b : Rat) : Rat :=
  match a with
  | some q => if q = 0 then b else q
  | none => b

/-- Prefix test on character lists. -/
def charsPrefix : List Char → List Char → Bool
  | [], _ => true
  | _ :: _, [] => false
  | a :: as, b :: bs => a == b && charsPrefix as bs

/-- Infix test on character lists. -/
def charsInfix (sub : List Char) : List Char → Bool
  | [] => sub.isEmpty
  | b :: bs => charsPrefix sub (b :: bs) || charsInfix sub bs

/-- Substring test (`String.prototype.includes`). -/
def containsSub (s sub : String) : Bool :=
  charsInfix sub.toList s.toList

/-- Whitespace trim (`String.prototype.trim`). -/
def jsTrim (s : String) : String :=
  String.mk (((s.toList.dropWhile Char.isWhitespace).reverse.dropWhile
    Char.isWhitespace).reverse)

/-- Split of a character list at every occurrence of a separator. -/
def splitOnChar (sep : Char) : List Char → List (List Char)
  | [] => [[]]
  | c :: rest =>
      let r := splitOnChar sep rest
      if c == sep then [] :: r
      else
        match r with
        | [] => [[c]]
        | h :: t => (c :: h) :: t

/-- `String.prototype.split` with a one-character separator. -/
def jsSplit (sep : Char) (s : String) : List String :=
  (splitOnChar sep s.toList).map String.mk

/-- Leading decimal digits of a character list. -/
def spanDigits (cs : List Char) : List Char × List Char :=
  match cs with
  | [] => ([], [])
  | c :: rest =>
      if c.isDigit then
        let r := spanDigits rest
        (c :: r.1, r.2)
      else ([], c :: rest)

/-- Numeric value of a list of decimal digits. -/
def digitsVal (cs : List Char) : Nat :=
  cs.foldl (fun n c => n * 10 + (c.toNat - 48)) 0

/-- JavaScript `parseInt` on a string: optional sign followed by a
longest leading run of digits; `none` models `NaN` (no digits).
(Radix prefixes and exponents do not occur in this program's inputs.) -/
def jsParseInt (s : String) : Option Int :=
  let cs := (jsTrim s).toList
  let signed : Int × List Char :=
    match cs with
    | '-' :: r => (-1, r)
    | '+' :: r => (1, r)
    | _ => (1, cs)
  let p := spanDigits signed.2
  if p.1.isEmpty then none else some (signed.1 * (digitsVal p.1 : Int))

/-- JavaScript `parseFloat` on a string: optional sign, leading digits,
optional fraction. `none` models `NaN`. (Exponent notation does not
occur in this program's inputs.) -/
def jsParseFloat (s : String) : Option Rat :=
  let cs := (jsTrim s).toList
  let signed : Rat × List Char :=
    match cs with
    | '-' :: r => (-1, r)
    | '+' :: r => (1, r)
    | _ => (1, cs)
  let ip := spanDigits signed.2
  let fp :=
    match ip.2 with
    | '.' :: r => (spanDigits r).1
    | _ => []
  if ip.1.isEmpty ∧ fp.isEmpty then none
  else some (signed.1 * ((digitsVal ip.1 : Rat) +
    (digitsVal fp : Rat) / ((10 : Rat) ^ fp.length)))

/-- `JSON.parse` restricted to the boolean texts this program writes
with `JSON.stringify` for flags; any other text models a parse throw. -/
def jsonBool (s : String) : Option Bool :=
  if s = "true" then some true
  else if s = "false" then some false
  else none

/-- Stable insertion of an element into a list under a Boolean
comparator (used to model `Array.prototype.sort`). -/
def insertLe {α : Type} (le : α → α → Bool) (a : α) : List α → List α
  | [] => [a]
  | b :: t => if le a b then a :: b :: t else b :: insertLe le a t

/-- `Array.prototype.sort` under a Boolean comparator: the result is
ordered by `le`; comparator ties keep elements adjacent. Tie order is
irrelevant to every claim proved below. -/
def jsSort {α : Type} (le : α → α → Bool) : List α → List α
  | [] => []
  | a :: t => insertLe le a (jsSort le t)

/-! ## Data model of `src/db.js` (class BabyFoodDB)

Stored record shapes: an input record spread into the object store
together with the derived index fields and `createdAt`; `id` is the
auto-increment key assigned by the store. The `supplied*` fields model
arbitrary `timestamp`/`date`/`yearMonth` values a caller may have put
on the input object: the source spreads the input first and then
writes the computed fields over the same keys, so they never reach
the stored record. -/

/-- Input object passed to `BabyFoodDB.addFeeding`. -/
structure FeedingInput where
  time : Option Int
  type : String
  amount : Option Int := none
  duration : Option Int := none
  nextFeedingInterval : Option Rat := none
  timezone : String
  suppliedTimestamp : Option String := none
  suppliedDate : Option String := none
  suppliedYearMonth : Option String := none
  deriving DecidableEq

/-- Record stored in the `feedings` object store. -/
structure StoredFeeding where
  id : Nat
  time : Int
  type : String
  amount : Option Int
  duration : Option Int
  nextFeedingInterval : Option Rat
  timezone : String
  timestamp : Int
  date : String
  yearMonth : String
  createdAt : Int
  deriving DecidableEq

/-- Input object passed to `BabyFoodDB.addDiaper`. -/
structure DiaperInput where
  time : Option Int
  hasPee : Bool
  hasPoop : Bool
  level : Int
  notes : Option String := none
  timezone : Option String := none
  suppliedTimestamp : Option String := none
  deriving DecidableEq

/-- Record stored in the `diapers` object store. -/
structure StoredDiaper where
  id : Nat
  time : Int
  hasPee : Bool
  hasPoop : Bool
  level : Int
  notes : Option String
  timezone : Option String
  timestamp : Int
  date : String
  yearMonth : String
  createdAt : Int
  deriving DecidableEq

/-- Metadata value; `num none` models a `NaN` produced by `parseFloat`. -/
inductive MetaVal where
  | str (v : String)
  | boolV (v : Bool)
  | num (v : Option Rat)
  deriving DecidableEq

/-- Entry of the `metadata` object store (keyed by `key`). -/
structure MetaEntry where
  key : String
  value : MetaVal
  updatedAt : Int
  deriving DecidableEq

/-- Input object for the medicines collection.
Modelled from the spec: the snapshot's `src/db.js` lacks the medicines
object store that `src/app.js` calls into (`addMedicine`,
`updateMedicine`, `getMedicines`); per §4.1 the collection behaves
like the feedings store (auto-increment ids, derived index fields). -/
structure MedicineInput where
  time : Option Int
  name : String
  dose : String
  interval : Rat
  notes : String
  active : Bool
  nextDose : Option Int
  timezone : String
  deriving DecidableEq

/-- Record stored in the medicines collection.
Modelled from the spec: see `MedicineInput`. -/
structure StoredMedicine where
  id : Nat
  time : Int
  name : String
  dose : String
  interval : Rat
  notes : String
  active : Bool
  nextDose : Option Int
  timezone : String
  timestamp : Int
  date : String
  yearMonth : String
  createdAt : Int
  deriving DecidableEq

/-- State of the BabyFoodDB wrapper: the connection flags of the class
instance (`this.db`, `this.isReady`) and the durable contents of the
object stores with their auto-increment counters. -/
structure DBState where
  isReady : Bool := false
  dbOpen : Bool := false
  feedings : List StoredFeeding := []
  nextFeedingId : Nat := 1
  diapers : List StoredDiaper := []
  nextDiaperId : Nat := 1
  medicines : List StoredMedicine := []
  nextMedicineId : Nat := 1
  metadata : List MetaEntry := []
  deriving DecidableEq

/-- `BabyFoodDB.init`: returns the existing handle if open, otherwise
opens the database (the model database always opens; open failure is
injected at the call sites that react to it). -/
def DBState.initS (s : DBState) : DBState :=
  if s.dbOpen then s else { s with dbOpen := true, isReady := true }

/-- `BabyFoodDB.ensureInit`: re-initializes unless `isReady`. -/
def DBState.ensureInitS (s : DBState) : DBState :=
  if s.isReady then s else s.initS

/-- `BabyFoodDB.close`: releases the handle and clears both flags;
stored data is durable. -/
def DBState.closeS (s : DBState) : DBState :=
  { s with dbOpen := false, isReady := false }

/-- `BabyFoodDB.addFeeding`: derives `timestamp`/`date`/`yearMonth`
from `record.time`, assigns `createdAt` and the auto-increment id.
Throws (errors) when `time` is not a valid instant, as
`toISOString` does on an Invalid Date. -/
def DBState.addFeeding (now : Int) (f : FeedingInput) (s : DBState) :
    Except String (Nat × DBState) :=
  let s := s.ensureInitS
  match f.time with
  | none => .error "RangeError: Invalid time value"
  | some t =>
      let date := isoDateOfMillis t
      let stored : StoredFeeding :=
        { id := s.nextFeedingId, time := t, type := f.type,
          amount := f.amount, duration := f.duration,
          nextFeedingInterval := f.nextFeedingInterval,
          timezone := f.timezone, timestamp := t, date := date,
          yearMonth := strTake date 7, createdAt := now }
      .ok (s.nextFeedingId,
        { s with feedings := s.feedings ++ [stored],
                 nextFeedingId := s.nextFeedingId + 1 })

/-- Query options for `BabyFoodDB.getFeedings`. -/
structure FeedingQuery where
  startDate : Option Int := none
  endDate : Option Int := none
  date : Option String := none
  yearMonth : Option String := none
  type : Option String := none
  ascending : Bool := false
  limit : Option Nat := none
  deriving DecidableEq

/-- Comparator step of `BabyFoodDB` queries: newest first by default. -/
def tsLe (ascending : Bool) (a b : Int) : Bool :=
  if ascending then decide (a ≤ b) else decide (b ≤ a)

/-- `BabyFoodDB.getFeedings`: index selection (timestamp range when
both bounds are present, else exact date, else exact yearMonth, else
full scan), post-filter by `type`, in-memory sort, truncation when
`limit` is truthy (a `limit` of `0` is falsy and ignored). -/
def DBState.getFeedings (q : FeedingQuery) (s : DBState) :
    List StoredFeeding × DBState :=
  let s := s.ensureInitS
  let base :=
    match q.startDate, q.endDate with
    | some a, some b =>
        s.feedings.filter (fun f => decide (a ≤ f.timestamp) && decide (f.timestamp ≤ b))
    | _, _ =>
        match q.date with
        | some d => s.feedings.filter (fun f => decide (f.date = d))
        | none =>
            match q.yearMonth with
            | some ym => s.feedings.filter (fun f => decide (f.yearMonth = ym))
            | none => s.feedings
  let filtered :=
    match q.type with
    | some t => base.filter (fun f => decide (f.type = t))
    | none => base
  let sorted := jsSort (fun a b => tsLe q.ascending a.timestamp b.timestamp) filtered
  let limited :=
    match q.limit with
    | some n => if n ≠ 0 then sorted.take n else sorted
    | none => sorted
  (limited, s)

/-- `BabyFoodDB.getFeeding`: point lookup by id. -/
def DBState.getFeeding (id : Nat) (s : DBState) :
    Option StoredFeeding × DBState :=
  let s := s.ensureInitS
  (s.feedings.find? (fun f => decide (f.id = id)), s)

/-- Partial update object for `BabyFoodDB.updateFeeding`. -/
structure FeedingPatch where
  time : Option Int := none
  type : Option String := none
  amount : Option (Option Int) := none
  duration : Option (Option Int) := none
  nextFeedingInterval : Option (Option Rat) := none
  timezone : Option String := none
  deriving DecidableEq

/-- Merge of a partial update into a stored feeding
(`{ ...feeding, ...updates }`), re-deriving the index fields when
`time` is among the updated fields. -/
def applyFeedingPatch (p : FeedingPatch) (f : StoredFeeding) : StoredFeeding :=
  let base : StoredFeeding :=
    { f with
      time := p.time.getD f.time,
      type := p.type.getD f.type,
      amount := p.amount.getD f.amount,
      duration := p.duration.getD f.duration,
      nextFeedingInterval := p.nextFeedingInterval.getD f.nextFeedingInterval,
      timezone := p.timezone.getD f.timezone }
  match p.time with
  | some t =>
      { base with timestamp := t, date := isoDateOfMillis t,
                  yearMonth := strTake (isoDateOfMillis t) 7 }
  | none => base

/-- `BabyFoodDB.updateFeeding`: read-modify-write; throws when the id
does not exist. -/
def DBState.updateFeeding (id : Nat) (p : FeedingPatch) (s : DBState) :
    Except String DBState :=
  let s := s.ensureInitS
  match s.feedings.find? (fun f => decide (f.id = id)) with
  | none => .error "not found"
  | some f =>
      let upd := applyFeedingPatch p f
      .ok { s with feedings := s.feedings.map (fun g => if g.id = id then upd else g) }

/-- `BabyFoodDB.deleteFeeding`: delete by key (no error when absent). -/
def DBState.deleteFeeding (id : Nat) (s : DBState) : DBState :=
  let s := s.ensureInitS
  { s with feedings := s.feedings.filter (fun f => decide (f.id ≠ id)) }

/-- `BabyFoodDB.clearFeedings`. -/
def DBState.clearFeedings (s : DBState) : DBState :=
  let s := s.ensureInitS
  { s with feedings := [] }

/-- `BabyFoodDB.addDiaper`: same derivation as `addFeeding`. -/
def DBState.addDiaper (now : Int) (d : DiaperInput) (s : DBState) :
    Except String (Nat × DBState) :=
  let s := s.ensureInitS
  match d.time with
  | none => .error "RangeError: Invalid time value"
  | some t =>
      let date := isoDateOfMillis t
      let stored : StoredDiaper :=
        { id := s.nextDiaperId, time := t, hasPee := d.hasPee,
          hasPoop := d.hasPoop, level := d.level, notes := d.notes,
          timezone := d.timezone, timestamp := t, date := date,
          yearMonth := strTake date 7, createdAt := now }
      .ok (s.nextDiaperId,
        { s with diapers := s.diapers ++ [stored],
                 nextDiaperId := s.nextDiaperId + 1 })

/-- Query options for `BabyFoodDB.getDiapers`. -/
structure DiaperQuery where
  startDate : Option Int := none
  endDate : Option Int := none
  date : Option String := none
  yearMonth : Option String := none
  hasPee : Option Bool := none
  hasPoop : Option Bool := none
  ascending : Bool := false
  limit : Option Nat := none
  deriving DecidableEq

/-- `BabyFoodDB.getDiapers`: as `getFeedings`, with the `hasPee` and
`hasPoop` post-filters applied when defined (an `undefined` check, not
a truthiness check). -/
def DBState.getDiapers (q : DiaperQuery) (s : DBState) :
    List StoredDiaper × DBState :=
  let s := s.ensureInitS
  let base :=
    match q.startDate, q.endDate with
    | some a, some b =>
        s.diapers.filter (fun d => decide (a ≤ d.timestamp) && decide (d.timestamp ≤ b))
    | _, _ =>
        match q.date with
        | some dt => s.diapers.filter (fun d => decide (d.date = dt))
        | none =>
            match q.yearMonth with
            | some ym => s.diapers.filter (fun d => decide (d.yearMonth = ym))
            | none => s.diapers
  let f1 :=
    match q.hasPee with
    | some v => base.filter (fun d => d.hasPee == v)
    | none => base
  let f2 :=
    match q.hasPoop with
    | some v => f1.filter (fun d => d.hasPoop == v)
    | none => f1
  let sorted := jsSort (fun a b => tsLe q.ascending a.timestamp b.timestamp) f2
  let limited :=
    match q.limit with
    | some n => if n ≠ 0 then sorted.take n else sorted
    | none => sorted
  (limited, s)

/-- `BabyFoodDB.deleteDiaper`. -/
def DBState.deleteDiaper (id : Nat) (s : DBState) : DBState :=
  let s := s.ensureInitS
  { s with diapers := s.diapers.filter (fun d => decide (d.id ≠ id)) }

/-- `BabyFoodDB.clearDiapers`. -/
def DBState.clearDiapers (s : DBState) : DBState :=
  let s := s.ensureInitS
  { s with diapers := [] }

/-- `BabyFoodDB.setMetadata`: `put` keyed by `key` (upsert). -/
def DBState.setMetadataS (key : String) (v : MetaVal) (now : Int) (s : DBState) :
    DBState :=
  let s := s.ensureInitS
  let entry : MetaEntry := { key := key, value := v, updatedAt := now }
  { s with metadata :=
      if s.metadata.any (fun e => decide (e.key = key)) then
        s.metadata.map (fun e => if e.key = key then entry else e)
      else s.metadata ++ [entry] }

/-- `BabyFoodDB.getMetadata`: value of the entry, or null. -/
def DBState.getMetadataS (key : String) (s : DBState) :
    Option MetaVal × DBState :=
  let s := s.ensureInitS
  ((s.metadata.find? (fun e => decide (e.key = key))).map MetaEntry.value, s)

/-- `BabyFoodDB.clearAllData`: clear feedings and diapers. -/
def DBState.clearAllData (s : DBState) : DBState :=
  let s := s.ensureInitS
  { s with feedings := [], diapers := [] }

/-- `addMedicine` on the medicines collection.
Modelled from the spec: see `MedicineInput`. -/
def DBState.addMedicine (now : Int) (m : MedicineInput) (s : DBState) :
    Except String (Nat × DBState) :=
  let s := s.ensureInitS
  match m.time with
  | none => .error "RangeError: Invalid time value"
  | some t =>
      let date := isoDateOfMillis t
      let stored : StoredMedicine :=
        { id := s.nextMedicineId, time := t, name := m.name,
          dose := m.dose, interval := m.interval, notes := m.notes,
          active := m.active, nextDose := m.nextDose,
          timezone := m.timezone, timestamp := t, date := date,
          yearMonth := strTake date 7, createdAt := now }
      .ok (s.nextMedicineId,
        { s with medicines := s.medicines ++ [stored],
                 nextMedicineId := s.nextMedicineId + 1 })

/-- Partial update object for the medicines collection.
Modelled from the spec: see `MedicineInput`. -/
structure MedicinePatch where
  nextDose : Option (Option Int) := none
  active : Option Bool := none
  deriving DecidableEq

/-- `updateMedicine` on the medicines collection.
Modelled from the spec: see `MedicineInput`. -/
def DBState.updateMedicine (id : Nat) (p : MedicinePatch) (s : DBState) :
    Except String DBState :=
  let s := s.ensureInitS
  match s.medicines.find? (fun m => decide (m.id = id)) with
  | none => .error "not found"
  | some m =>
      let upd : StoredMedicine :=
        { m with nextDose := p.nextDose.getD m.nextDose,
                 active := p.active.getD m.active }
      .ok { s with medicines := s.medicines.map (fun g => if g.id = id then upd else g) }

/-- `getMedicines` on the medicines collection (full scan, newest
first). Modelled from the spec: see `MedicineInput`. -/
def DBState.getMedicines (s : DBState) : List StoredMedicine × DBState :=
  let s := s.ensureInitS
  (jsSort (fun a b => tsLe false a.timestamp b.timestamp) s.medicines, s)

/-! ## localStorage model and mirror record shapes -/

/-- A value stored under a collection key of `localStorage`: the JSON
text of an array, abstracted to the cases the program distinguishes.
`emptyArr` is the exact two-character empty-array literal the code
compares against; `items` is any other parseable array text;
`corrupt` is unparseable text (on which `JSON.parse` throws);
`emptyStr` is the empty string (the only falsy string). -/
inductive FlatVal (α : Type) where
  | emptyStr
  | emptyArr
  | items (l : List α)
  | corrupt
  deriving DecidableEq

/-- Truthiness of `localStorage.getItem(key)` for a collection key. -/
def flatTruthy {α : Type} : Option (FlatVal α) → Bool
  | none => false
  | some .emptyStr => false
  | some _ => true

/-- The condition `value && value !== '[]'` the migration applies to a
collection key. -/
def flatHasData {α : Type} : Option (FlatVal α) → Bool
  | some (.items _) => true
  | some .corrupt => true
  | _ => false

/-- In-memory mirror feeding of `FeedingTracker` (also the shape
persisted under the `feedings` localStorage key, and the shape of the
pre-migration flat records read by `StorageMigration`). An absent or
unparseable time value is `none`. -/
structure MirrorFeeding where
  id : Int
  timestamp : Option Int
  type : String
  amount : Option Int := none
  duration : Option Int := none
  nextFeedingInterval : Option Rat := none
  timezone : Option String := none
  deriving DecidableEq

/-- In-memory mirror diaper of `FeedingTracker`. -/
structure MirrorDiaper where
  id : Int
  timestamp : Option Int
  hasPee : Bool
  hasPoop : Bool
  level : Int
  notes : Option String := none
  timezone : Option String := none
  deriving DecidableEq

/-- In-memory mirror medicine of `FeedingTracker`. -/
structure MirrorMedicine where
  id : Int
  timestamp : Option Int
  name : String
  dose : String
  interval : Rat
  notes : Option String := none
  active : Bool
  nextDose : Option Int := none
  timezone : Option String := none
  deriving DecidableEq

/-- Backup blob written by `StorageMigration.createBackup` under the
`localStorage_backup` key: a timestamp plus the raw values of the six
migrated keys (null for an absent key). -/
structure BackupBlob where
  timestamp : Int
  feedings : Option (FlatVal MirrorFeeding)
  diapers : Option (FlatVal MirrorDiaper)
  timezone : Option String
  darkMode : Option String
  defaultInterval : Option String
  nextFeedingTime : Option String
  deriving DecidableEq

/-- The `localStorage` keys this program reads or writes. `none` is an
absent key. Settings keys hold raw strings; `migrationFlag` is the
`migrated_to_indexeddb_v1` key. -/
structure LocalStore where
  feedings : Option (FlatVal MirrorFeeding) := none
  diapers : Option (FlatVal MirrorDiaper) := none
  medicines : Option (FlatVal MirrorMedicine) := none
  timezone : Option String := none
  darkMode : Option String := none
  defaultInterval : Option String := none
  nextFeedingTime : Option String := none
  migrationFlag : Option String := none
  backup : Option BackupBlob := none
  deriving DecidableEq

/-! ## StorageMigration (the migration utility source file) -/

/-- `StorageMigration.hasMigrated`. -/
def StorageMigration.hasMigrated (ls : LocalStore) : Bool :=
  ls.migrationFlag == some "true"

/-- `StorageMigration.hasLocalStorageData`. -/
def StorageMigration.hasLocalStorageData (ls : LocalStore) : Bool :=
  flatHasData ls.feedings || flatHasData ls.diapers

/-- Result status of `StorageMigration.migrate`. -/
inductive MigStatus where
  | success
  | alreadyMigrated
  | noData
  | failed
  deriving DecidableEq

/-- Result object of `StorageMigration.migrate`; `errors` keeps the
`type` tags of the entries pushed onto the error list. -/
structure MigResult where
  status : MigStatus
  feedings : Nat
  diapers : Nat
  errors : List String
  deriving DecidableEq

/-- Environment of a `migrate()` run: the clock, the runtime timezone
(`Intl.DateTimeFormat().resolvedOptions().timeZone`), and injected
platform failures — `initThrows` makes `db.init()` reject inside the
`try` block, `backupThrows` makes the `localStorage.setItem` of
`createBackup` throw (quota exceeded), which happens before the
`try` block. -/
structure MigrateEnv where
  now : Int
  tz : String
  initThrows : Bool := false
  backupThrows : Bool := false

/-- `StorageMigration.transformFeeding`: old flat record to the
IndexedDB insert shape; `nextFeedingInterval` defaults to `3.5` and
`timezone` to the runtime zone via JavaScript `||`. -/
def StorageMigration.transformFeeding (tz : String) (old : MirrorFeeding) :
    FeedingInput :=
  { time := old.timestamp, type := old.type, amount := old.amount,
    duration := old.duration,
    nextFeedingInterval := some (jsOrQ old.nextFeedingInterval ((7 : Rat) / 2)),
    timezone := jsOrS old.timezone tz }

/-- `StorageMigration.transformDiaper`. -/
def StorageMigration.transformDiaper (tz : String) (old : MirrorDiaper) :
    DiaperInput :=
  { time := old.timestamp, hasPee := old.hasPee, hasPoop := old.hasPoop,
    level := old.level, notes := some (jsOrS old.notes ""),
    timezone := some (jsOrS old.timezone tz) }

/-- Per-record feeding loop of `migrate()`: a record whose insert
throws is logged to the error list and does not block the rest. -/
def migrateFeedingLoop (now : Int) (tz : String)
    (olds : List MirrorFeeding) (db : DBState) : Nat × List String × DBState :=
  olds.foldl
    (fun acc old =>
      match DBState.addFeeding now (StorageMigration.transformFeeding tz old) acc.2.2 with
      | .ok r => (acc.1 + 1, acc.2.1, r.2)
      | .error _ => (acc.1, acc.2.1 ++ ["feeding"], acc.2.2))
    (0, [], db)

/-- Per-record diaper loop of `migrate()`. -/
def migrateDiaperLoop (now : Int) (tz : String)
    (olds : List MirrorDiaper) (db : DBState) : Nat × List String × DBState :=
  olds.foldl
    (fun acc old =>
      match DBState.addDiaper now (StorageMigration.transformDiaper tz old) acc.2.2 with
      | .ok r => (acc.1 + 1, acc.2.1, r.2)
      | .error _ => (acc.1, acc.2.1 ++ ["diaper"], acc.2.2))
    (0, [], db)

/-- Feeding phase of `migrate()`: skipped for a falsy or `'[]'` value,
a parse failure is logged as one error entry, otherwise the records
are attempted one by one. -/
def migrateFeedings (now : Int) (tz : String)
    (v : Option (FlatVal MirrorFeeding)) (db : DBState) :
    Nat × List String × DBState :=
  match v with
  | some (.items l) => migrateFeedingLoop now tz l db
  | some .corrupt => (0, ["parse_feedings"], db)
  | _ => (0, [], db)

/-- Diaper phase of `migrate()`. -/
def migrateDiapers (now : Int) (tz : String)
    (v : Option (FlatVal MirrorDiaper)) (db : DBState) :
    Nat × List String × DBState :=
  match v with
  | some (.items l) => migrateDiaperLoop now tz l db
  | some .corrupt => (0, ["parse_diapers"], db)
  | _ => (0, [], db)

/-- Settings step for the `darkMode` key: `JSON.parse` of the stored
text; an unparseable text throws inside the `try` block. Returns
(threw, state). -/
def darkModeStep (v : Option String) (now : Int) (db : DBState) :
    Bool × DBState :=
  match v with
  | none => (false, db)
  | some s =>
      if s.isEmpty then (false, db)
      else
        match jsonBool s with
        | some b => (false, db.setMetadataS "darkMode" (.boolV b) now)
        | none => (true, db)

/-- The settings keys copied verbatim or via `parseFloat` (those
parses never throw). -/
def settingsTail (ls : LocalStore) (now : Int) (db : DBState) : DBState :=
  let db :=
    match ls.defaultInterval with
    | some s => if s.isEmpty then db
                else db.setMetadataS "defaultInterval" (.num (jsParseFloat s)) now
    | none => db
  match ls.nextFeedingTime with
  | some s => if s.isEmpty then db else db.setMetadataS "nextFeedingTime" (.str s) now
  | none => db

/-- Body of the `try` block of `migrate()`: `db.init()`, the two
record loops, the settings copy, then flag-set and removal of the
migrated collection keys. Any throw inside is caught and turns the
result status to `failed` without setting the flag; effects already
applied remain. -/
def migrateTry (env : MigrateEnv) (ls : LocalStore) (db : DBState) :
    MigResult × LocalStore × DBState :=
  if env.initThrows then
    ({ status := .failed, feedings := 0, diapers := 0,
       errors := ["migration"] }, ls, db)
  else
    let db1 := db.initS
    let fr := migrateFeedings env.now env.tz ls.feedings db1
    let dr := migrateDiapers env.now env.tz ls.diapers fr.2.2
    let errs := fr.2.1 ++ dr.2.1
    let db2 :=
      match ls.timezone with
      | some s => if s.isEmpty then dr.2.2
                  else dr.2.2.setMetadataS "timezone" (.str s) env.now
      | none => dr.2.2
    let dm := darkModeStep ls.darkMode env.now db2
    if dm.1 then
      ({ status := .failed, feedings := fr.1, diapers := dr.1,
         errors := errs ++ ["migration"] }, ls, dm.2)
    else
      let db3 := settingsTail ls env.now dm.2
      ({ status := .success, feedings := fr.1, diapers := dr.1, errors := errs },
       { ls with migrationFlag := some "true", feedings := none, diapers := none },
       db3)

/-- `StorageMigration.migrate`: the already-migrated and no-data
short-circuits, then `createBackup` (outside the `try` block — a
throw there propagates to the caller), then the guarded transfer. -/
def StorageMigration.migrate (env : MigrateEnv) (ls : LocalStore) (db : DBState) :
    Except String MigResult × LocalStore × DBState :=
  if StorageMigration.hasMigrated ls then
    (.ok { status := .alreadyMigrated, feedings := 0, diapers := 0, errors := [] },
     ls, db)
  else if ¬ StorageMigration.hasLocalStorageData ls then
    (.ok { status := .noData, feedings := 0, diapers := 0, errors := [] },
     { ls with migrationFlag := some "true" }, db)
  else if env.backupThrows then
    (.error "QuotaExceededError", ls, db)
  else
    let blob : BackupBlob :=
      { timestamp := env.now, feedings := ls.feedings, diapers := ls.diapers,
        timezone := ls.timezone, darkMode := ls.darkMode,
        defaultInterval := ls.defaultInterval,
        nextFeedingTime := ls.nextFeedingTime }
    let ls1 := { ls with backup := some blob }
    let r := migrateTry env ls1 db
    (.ok r.1, r.2.1, r.2.2)


/-- The `darkMode` scalar holds nothing that would make its
`JSON.parse` throw during the settings copy of `migrate()`. -/
def darkModeOkV (v : Option String) : Bool :=
  match v with
  | none => true
  | some s => s.isEmpty || (jsonBool s).isSome

/-! ## FeedingTracker (controller): mirror, backend selection, CRUD -/

/-- In-memory state of the `FeedingTracker` instance (the collection
mirrors and the storage-relevant settings; presentation-only fields
such as timers are out of scope). The model carries the three
collections every claim touches — feedings, diapers, medicines; the
remaining four collections follow the identical load/save pattern. -/
structure TrackerState where
  feedings : List MirrorFeeding := []
  diapers : List MirrorDiaper := []
  medicines : List MirrorMedicine := []
  timezone : String
  darkMode : Bool := false
  defaultInterval : Rat := (7 : Rat) / 2
  currentDiaperLevel : Int := 2
  useIndexedDB : Bool := false
  storageType : String := "initializing"
  deriving DecidableEq

/-- Constructor state of `FeedingTracker` for a runtime timezone. -/
def initialTracker (tz : String) : TrackerState :=
  { timezone := tz }

/-- Field translation applied by `loadFromStorage` to a feeding
(backend shape to the controller's canonical shape). -/
def mirrorOfStoredFeeding (f : StoredFeeding) : MirrorFeeding :=
  { id := (f.id : Int), timestamp := some f.time, type := f.type,
    amount := f.amount, duration := f.duration,
    nextFeedingInterval := f.nextFeedingInterval,
    timezone := some f.timezone }

/-- Field translation applied by `loadFromStorage` to a diaper. -/
def mirrorOfStoredDiaper (d : StoredDiaper) : MirrorDiaper :=
  { id := (d.id : Int), timestamp := some d.time, hasPee := d.hasPee,
    hasPoop := d.hasPoop, level := d.level, notes := d.notes,
    timezone := d.timezone }

/-- Field translation applied by `loadFromStorage` to a medicine. -/
def mirrorOfStoredMedicine (m : StoredMedicine) : MirrorMedicine :=
  { id := (m.id : Int), timestamp := some m.time, name := m.name,
    dose := m.dose, interval := m.interval, notes := some m.notes,
    active := m.active, nextDose := m.nextDose,
    timezone := some m.timezone }

/-- `FeedingTracker.loadFromStorage`: every modelled collection is
read from the RecordStore and translated into the mirror. (The
settings reads from metadata only touch presentation state no claim
references and are omitted.) -/
def loadFromStorage (db : DBState) (t : TrackerState) :
    TrackerState × DBState :=
  let fr := db.getFeedings {}
  let dr := fr.2.getDiapers {}
  let mr := dr.2.getMedicines
  ({ t with feedings := fr.1.map mirrorOfStoredFeeding,
            diapers := dr.1.map mirrorOfStoredDiaper,
            medicines := mr.1.map mirrorOfStoredMedicine }, mr.2)

/-- One collection read of `FeedingTracker.loadFromLocalStorage`:
`getItem` then, when the value is truthy, `JSON.parse` — which throws
on a corrupt value; an absent key leaves the previous mirror value. -/
def loadColl {α : Type} (v : Option (FlatVal α)) (old : List α) :
    Except String (List α) :=
  match v with
  | none => .ok old
  | some .emptyStr => .ok old
  | some .emptyArr => .ok []
  | some (.items l) => .ok l
  | some .corrupt => .error "SyntaxError: JSON.parse"

/-- Value of one mirror collection after `loadFromLocalStorage` reads
its key: a parseable array replaces the mirror, the empty-array
literal empties it, an absent or empty-string value leaves it. -/
def flatLoaded {α : Type} (v : Option (FlatVal α)) (old : List α) : List α :=
  match v with
  | some (.items l) => l
  | some .emptyArr => []
  | _ => old

/-- `FeedingTracker.loadFromLocalStorage` for the modelled
collections, in source order (feedings, diapers, medicines); the
first corrupt value throws out of the whole load. (Settings keys are
presentation state and omitted.) -/
def loadFromLocalStorage (ls : LocalStore) (t : TrackerState) :
    Except String TrackerState :=
  match loadColl ls.feedings t.feedings with
  | .error e => .error e
  | .ok fs =>
      match loadColl ls.diapers t.diapers with
      | .error e => .error e
      | .ok ds =>
          match loadColl ls.medicines t.medicines with
          | .error e => .error e
          | .ok ms => .ok { t with feedings := fs, diapers := ds, medicines := ms }

/-- `FeedingTracker.saveToLocalStorage` restricted to the modelled
collection keys: each mirror is serialized wholesale over the
previous value. -/
def saveToLocalStorage (t : TrackerState) (ls : LocalStore) : LocalStore :=
  { ls with
    feedings := some (if t.feedings.isEmpty then .emptyArr else .items t.feedings),
    diapers := some (if t.diapers.isEmpty then .emptyArr else .items t.diapers),
    medicines := some (if t.medicines.isEmpty then .emptyArr else .items t.medicines) }

/-- Environment of `FeedingTracker.init`: the clock, the runtime
timezone, whether the IndexedDB open succeeds (`dbAvail`), and the
backup failure injection forwarded to `migrate()`. -/
structure TrackerEnv where
  now : Int
  tz : String
  dbAvail : Bool
  backupThrows : Bool := false

/-- The `catch` path of `FeedingTracker.init`: fall back to
localStorage mode and load the mirrors from the flat keys (a corrupt
flat collection makes this load throw out of `init` — the only error
`init` can propagate). -/
def fallbackLoad (t0 : TrackerState) (ls : LocalStore) (db : DBState) :
    Except String (TrackerState × LocalStore × DBState) :=
  match loadFromLocalStorage ls
      { t0 with useIndexedDB := false, storageType := "localstorage" } with
  | .ok t1 => .ok (t1, ls, db)
  | .error e => .error e

/-- `FeedingTracker.init`: try `db.init()` then `migration.migrate()`
then the RecordStore load; any throw in that sequence (open rejection,
or a migrate rejection from the backup step) is caught and switches to
the localStorage fallback. The migrate result value is only
informational. -/
def FeedingTracker.init (env : TrackerEnv) (ls : LocalStore) (db : DBState) :
    Except String (TrackerState × LocalStore × DBState) :=
  let t0 := initialTracker env.tz
  if env.dbAvail then
    let m := StorageMigration.migrate
      { now := env.now, tz := env.tz, initThrows := false,
        backupThrows := env.backupThrows } ls db.initS
    match m with
    | (.error _, ls1, db1) => fallbackLoad t0 ls1 db1
    | (.ok _, ls1, db1) =>
        let ld := loadFromStorage db1
          { t0 with useIndexedDB := true, storageType := "indexeddb" }
        .ok (ld.1, ls1, ld.2)
  else
    fallbackLoad t0 ls db

/-- `FeedingTracker.addDiaper` (user add path): validation first —
both flags false is rejected before anything is written — then the
record literal (whose `toISOString` throws on an invalid time input),
then the backend write and mirror unshift. -/
def FeedingTracker.addDiaper (now : Int) (timeInput : Option Int)
    (hasPee hasPoop : Bool) (notes : String)
    (t : TrackerState) (ls : LocalStore) (db : DBState) :
    Except String (TrackerState × LocalStore × DBState) :=
  if ¬ hasPee ∧ ¬ hasPoop then .ok (t, ls, db)
  else
    match timeInput with
    | none => .error "RangeError: Invalid time value"
    | some time =>
        let diaper : DiaperInput :=
          { time := some time, hasPee := hasPee, hasPoop := hasPoop,
            level := t.currentDiaperLevel, notes := some notes,
            timezone := some t.timezone }
        if t.useIndexedDB then
          match db.addDiaper now diaper with
          | .error e => .error e
          | .ok (id, db1) =>
              let mirror : MirrorDiaper :=
                { id := (id : Int), timestamp := some time, hasPee := hasPee,
                  hasPoop := hasPoop, level := t.currentDiaperLevel,
                  notes := some notes, timezone := some t.timezone }
              .ok ({ t with diapers := mirror :: t.diapers }, ls, db1)
        else
          let mirror : MirrorDiaper :=
            { id := now, timestamp := some time, hasPee := hasPee,
              hasPoop := hasPoop, level := t.currentDiaperLevel,
              notes := some notes, timezone := some t.timezone }
          let t1 := { t with diapers := mirror :: t.diapers }
          .ok (t1, saveToLocalStorage t1 ls, db)

/-- In-place mutation of the first mirror medicine with a given id
(`this.medicines.find` followed by assignment to `nextDose`). -/
def updateNextDoseFirst (id : Int) (nd : Int) :
    List MirrorMedicine → List MirrorMedicine
  | [] => []
  | m :: rest =>
      if m.id = id then { m with nextDose := some nd } :: rest
      else m :: updateNextDoseFirst id nd rest

/-- Milliseconds of a fractional hour count (`interval * 60 * 60 *
1000` followed by the `Date` integer clip, truncation toward zero). -/
def intervalMs (q : Rat) : Int :=
  Int.tdiv ((q * 3600000).num) ((q * 3600000).den)

/-- History-entry notes text of `markMedicineTaken` (`medicine.notes`
truthiness). -/
def doseNotes (notes : Option String) : String :=
  match notes with
  | some s => if s.isEmpty then "Dosis registrada" else "Dosis de tratamiento: " ++ s
  | none => "Dosis registrada"

/-- History-entry insertion step of `markMedicineTaken` (everything
after the dose-update block): the history entry is added to the
backend in primary mode (a throw there reaches the outer catch after
the dose update already happened, leaving the mirror as it is) or
given a local `Date.now() + 1` id in fallback mode, and prepended to
the mirror (`unshift` of `{ id, timestamp: historyEntry.time,
...historyEntry }`). -/
def insertDoseHistory (now : Int) (hist : MedicineInput)
    (t1 : TrackerState) (ls : LocalStore) (db1 : DBState) :
    TrackerState × LocalStore × DBState :=
  if t1.useIndexedDB then
    match db1.addMedicine now hist with
    | .ok (newId, db2) =>
        let mirror : MirrorMedicine :=
          { id := (newId : Int), timestamp := hist.time, name := hist.name,
            dose := hist.dose, interval := hist.interval,
            notes := some hist.notes, active := hist.active,
            nextDose := hist.nextDose, timezone := some hist.timezone }
        ({ t1 with medicines := mirror :: t1.medicines }, ls, db2)
    | .error _ => (t1, ls, db1)
  else
    let mirror : MirrorMedicine :=
      { id := now + 1, timestamp := hist.time, name := hist.name,
        dose := hist.dose, interval := hist.interval,
        notes := some hist.notes, active := hist.active,
        nextDose := hist.nextDose, timezone := some hist.timezone }
    let t2 := { t1 with medicines := mirror :: t1.medicines }
    (t2, saveToLocalStorage t2 ls, db1)

/-- `FeedingTracker.markMedicineTaken`: no-op when the id is absent;
otherwise, when the interval is positive, the backend `nextDose`
update is awaited first in primary mode — a rejection there jumps to
the outer catch before `medicine.nextDose` is assigned, so mirror,
localStorage and backend are all left unchanged — and only then does
the mirror mutation and the history insertion happen. -/
def FeedingTracker.markMedicineTaken (now : Int) (id : Int)
    (t : TrackerState) (ls : LocalStore) (db : DBState) :
    TrackerState × LocalStore × DBState :=
  match t.medicines.find? (fun m => decide (m.id = id)) with
  | none => (t, ls, db)
  | some med =>
      let hist : MedicineInput :=
        { time := some now, name := med.name, dose := med.dose,
          interval := 0, notes := doseNotes med.notes, active := false,
          nextDose := none, timezone := t.timezone }
      if 0 < med.interval then
        let nd := now + intervalMs med.interval
        if t.useIndexedDB then
          match db.updateMedicine med.id.toNat { nextDose := some (some nd) } with
          | .error _ => (t, ls, db)
          | .ok db1 =>
              insertDoseHistory now hist
                { t with medicines := updateNextDoseFirst id nd t.medicines }
                ls db1
        else
          insertDoseHistory now hist
            { t with medicines := updateNextDoseFirst id nd t.medicines } ls db
      else
        insertDoseHistory now hist t ls db

/-! ## CSV import (FeedingTracker.importCSV) -/

/-- Collapse of every doubled double-quote into a single one. -/
def unescapeQuotes : List Char → List Char
  | '"' :: '"' :: rest => '"' :: unescapeQuotes rest
  | c :: rest => c :: unescapeQuotes rest
  | [] => []

/-- Strip the surrounding double quotes and unescape doubled quotes in
a notes cell (the two `.replace` steps of the import). -/
def unquoteCell (s : String) : String :=
  let cs := s.toList
  let cs := if cs.head? == some '"' then cs.tail else cs
  let cs := if cs.getLast? == some '"' then cs.dropLast else cs
  String.mk (unescapeQuotes cs)

/-- Parse accumulator of the import loop: the three collected record
lists plus the sticky `currentType` marker. -/
structure CsvAcc where
  feedings : List FeedingInput := []
  diapers : List DiaperInput := []
  current : Option String := none

/-- Feeding row of the import (`values` already split on commas);
`parseDate` is the host's date-string parser applied at insert time. -/
def csvFeeding (parseDate : String → Option Int) (tz : String)
    (vals : List String) : FeedingInput :=
  let v1 := vals.getD 1 ""
  let v2 := vals.getD 2 ""
  let v3 := vals.getD 3 ""
  let v4 := vals.getD 4 ""
  let v5 := vals.getD 5 ""
  let v6 := vals.getD 6 ""
  { time := parseDate v1,
    type := if v2 = "Biberón" then "bottle" else "breast",
    amount := if v3.isEmpty then none else jsParseInt v3,
    duration := if v4.isEmpty then none else jsParseInt v4,
    timezone := jsOrS (some v6) (jsOrS (some v5) tz),
    suppliedTimestamp := some v1 }

/-- Diaper row of the import: the flag cells are compared against the
affirmative literals only — any other text (including the exported
negative literal) yields `false`, with no validation that at least one
flag is set. -/
def csvDiaper (parseDate : String → Option Int) (tz : String)
    (vals : List String) : DiaperInput :=
  let v1 := vals.getD 1 ""
  let v2 := vals.getD 2 ""
  let v3 := vals.getD 3 ""
  let v4 := vals.getD 4 ""
  let v5 := vals.getD 5 ""
  let v6 := vals.getD 6 ""
  { time := parseDate v1,
    hasPee := v2 = "Sí" || v2 = "Yes",
    hasPoop := v3 = "Sí" || v3 = "Yes",
    level := match jsParseInt v4 with
             | some n => if n = 0 then 2 else n
             | none => 2,
    notes := some (if v5.isEmpty then "" else unquoteCell v5),
    timezone := some (jsOrS (some v6) tz),
    suppliedTimestamp := some v1 }

/-- One line of the import loop: trim, skip empty, split on commas,
then dispatch on the discriminant substring or the sticky
`currentType` from the previous line. -/
def importLine (parseDate : String → Option Int) (tz : String)
    (acc : CsvAcc) (rawLine : String) : CsvAcc :=
  let line := jsTrim rawLine
  if line.isEmpty then acc
  else
    let vals := jsSplit ',' line
    if containsSub line "ALIMENTACION" || acc.current == some "feeding" then
      { acc with feedings := acc.feedings ++ [csvFeeding parseDate tz vals],
                 current := some "feeding" }
    else if containsSub line "PANAL" || acc.current == some "diaper" then
      { acc with diapers := acc.diapers ++ [csvDiaper parseDate tz vals],
                 current := some "diaper" }
    else acc

/-- Parse phase of `FeedingTracker.importCSV`: the lines after the
header row, folded through the import loop. (The measurement branch
collects into a collection outside the model and cannot affect the
two modelled lists.) -/
def importParse (parseDate : String → Option Int) (tz : String)
    (lines : List String) : CsvAcc :=
  (lines.drop 1).foldl (importLine parseDate tz) {}

/-- Commit phase of `importCSV` in fallback (localStorage) mode:
local ids are assigned, the imported records are prepended to the
mirrors, each mirror is re-sorted newest first, and the collections
are re-saved wholesale. -/
def importCommitLocal (now : Int) (acc : CsvAcc)
    (t : TrackerState) (ls : LocalStore) : TrackerState × LocalStore :=
  let impF := acc.feedings.enum.map (fun p =>
    ({ id := now + (p.1 : Int), timestamp := p.2.time, type := p.2.type,
       amount := p.2.amount, duration := p.2.duration,
       nextFeedingInterval := p.2.nextFeedingInterval,
       timezone := some p.2.timezone } : MirrorFeeding))
  let impD := acc.diapers.enum.map (fun p =>
    ({ id := now + (p.1 : Int) + 10000, timestamp := p.2.time,
       hasPee := p.2.hasPee, hasPoop := p.2.hasPoop, level := p.2.level,
       notes := p.2.notes, timezone := p.2.timezone } : MirrorDiaper))
  let descLe : Option Int → Option Int → Bool := fun a b =>
    match a, b with
    | some x, some y => decide (y ≤ x)
    | _, _ => true
  let t1 := { t with
    feedings := jsSort (fun a b => descLe a.timestamp b.timestamp) (impF ++ t.feedings),
    diapers := jsSort (fun a b => descLe a.timestamp b.timestamp) (impD ++ t.diapers) }
  (t1, saveToLocalStorage t1 ls)

/-- `FeedingTracker.importCSV` in fallback mode, from the raw file
content (split on newlines as the source does): parse, then — when
anything was parsed and the user confirms — the local commit. -/
def FeedingTracker.importCSVLocal (parseDate : String → Option Int)
    (now : Int) (content : String)
    (t : TrackerState) (ls : LocalStore) : TrackerState × LocalStore :=
  let acc := importParse parseDate t.timezone (jsSplit '\n' content)
  if acc.feedings.length + acc.diapers.length = 0 then (t, ls)
  else importCommitLocal now acc t ls

/-! ## Uniform view of the public BabyFoodDB operations -/

/-- One public operation of `BabyFoodDB` (everything except `init` /
`ensureInit` / `close`, each of which awaits `ensureInit` first). -/
inductive DBOp where
  | addFeeding (f : FeedingInput)
  | getFeedings (q : FeedingQuery)
  | getFeeding (id : Nat)
  | updateFeeding (id : Nat) (p : FeedingPatch)
  | deleteFeeding (id : Nat)
  | clearFeedings
  | addDiaper (d : DiaperInput)
  | getDiapers (q : DiaperQuery)
  | deleteDiaper (id : Nat)
  | clearDiapers
  | setMetadata (key : String) (v : MetaVal)
  | getMetadata (key : String)
  | clearAllData

/-- Return value of a public operation. -/
inductive DBRes where
  | newId (n : Nat)
  | feeding (r : Option StoredFeeding)
  | feedings (l : List StoredFeeding)
  | diapers (l : List StoredDiaper)
  | metaVal (v : Option MetaVal)
  | done
  | failure (e : String)
  deriving DecidableEq

/-- Dispatch of a public operation on the database state. -/
def runOp (op : DBOp) (now : Int) (s : DBState) : DBRes × DBState :=
  match op with
  | .addFeeding f =>
      match s.addFeeding now f with
      | .ok (id, s1) => (.newId id, s1)
      | .error e => (.failure e, s.ensureInitS)
  | .getFeedings q => let r := s.getFeedings q; (.feedings r.1, r.2)
  | .getFeeding id => let r := s.getFeeding id; (.feeding r.1, r.2)
  | .updateFeeding id p =>
      match s.updateFeeding id p with
      | .ok s1 => (.done, s1)
      | .error e => (.failure e, s.ensureInitS)
  | .deleteFeeding id => (.done, s.deleteFeeding id)
  | .clearFeedings => (.done, s.clearFeedings)
  | .addDiaper d =>
      match s.addDiaper now d with
      | .ok (id, s1) => (.newId id, s1)
      | .error e => (.failure e, s.ensureInitS)
  | .getDiapers q => let r := s.getDiapers q; (.diapers r.1, r.2)
  | .deleteDiaper id => (.done, s.deleteDiaper id)
  | .clearDiapers => (.done, s.clearDiapers)
  | .setMetadata key v => (.done, s.setMetadataS key v now)
  | .getMetadata key => let r := s.getMetadataS key; (.metaVal r.1, r.2)
  | .clearAllData => (.done, s.clearAllData)

/-! ## Theorems -/

theorem mem_insertLe {α : Type} (le : α → α → Bool) (a x : α) (l : List α) :
    x ∈ insertLe le a l ↔ x = a ∨ x ∈ l := by
  induction l with
  | nil => simp [insertLe]
  | cons b t ih =>
      by_cases h : le a b = true
      · simp [insertLe, h]
      · simp only [insertLe, h, Bool.false_eq_true, if_false, List.mem_cons, ih]
        tauto

theorem mem_jsSort {α : Type} (le : α → α → Bool) (x : α) (l : List α) :
    x ∈ jsSort le l ↔ x ∈ l := by
  induction l with
  | nil => simp [jsSort]
  | cons a t ih => simp [jsSort, mem_insertLe, ih]

theorem ensureInitS_closeS (s : DBState) :
    (s.closeS).ensureInitS = (s.closeS).initS := by
  simp [DBState.ensureInitS, DBState.closeS]

theorem ensureInitS_initS_closeS (s : DBState) :
    ((s.closeS).initS).ensureInitS = (s.closeS).initS := by
  simp [DBState.ensureInitS, DBState.initS, DBState.closeS]

/-- C10: every public database operation runs `ensureInit` first, so
running it directly after `close()` behaves exactly like running it
after an explicit `init()` that follows the `close()` — same return
value, same resulting state; the caller never needs an explicit
`init()`. -/
theorem alwaysEnsureInit_op_after_close (op : DBOp) (now : Int) (s : DBState) :
    runOp op now s.closeS = runOp op now ((s.closeS).initS) := by
  have h1 := ensureInitS_closeS s
  have h2 := ensureInitS_initS_closeS s
  cases op <;>
    simp only [runOp, DBState.addFeeding, DBState.getFeedings, DBState.getFeeding,
      DBState.updateFeeding, DBState.deleteFeeding, DBState.clearFeedings,
      DBState.addDiaper, DBState.getDiapers, DBState.deleteDiaper,
      DBState.clearDiapers, DBState.setMetadataS, DBState.getMetadataS,
      DBState.clearAllData, h1, h2]

/-! ## Claim theorems: query-layer properties of BabyFoodDB -/

theorem ensureInitS_feedings (s : DBState) :
    (s.ensureInitS).feedings = s.feedings := by
  simp only [DBState.ensureInitS, DBState.initS]
  split
  · rfl
  · split <;> rfl

theorem ensureInitS_nextFeedingId (s : DBState) :
    (s.ensureInitS).nextFeedingId = s.nextFeedingId := by
  simp only [DBState.ensureInitS, DBState.initS]
  split
  · rfl
  · split <;> rfl

theorem ensureInitS_diapers (s : DBState) :
    (s.ensureInitS).diapers = s.diapers := by
  simp only [DBState.ensureInitS, DBState.initS]
  split
  · rfl
  · split <;> rfl

theorem ensureInitS_nextDiaperId (s : DBState) :
    (s.ensureInitS).nextDiaperId = s.nextDiaperId := by
  simp only [DBState.ensureInitS, DBState.initS]
  split
  · rfl
  · split <;> rfl

theorem find?_append_last {α : Type} (p : α → Bool) (l : List α) (a : α)
    (h : ∀ x ∈ l, p x = false) (ha : p a = true) :
    (l ++ [a]).find? p = some a := by
  induction l with
  | nil => simp [List.find?, ha]
  | cons b t ih =>
      have hb : p b = false := h b (List.mem_cons_self b t)
      simp only [List.cons_append, List.find?, hb]
      exact ih (fun x hx => h x (List.mem_cons_of_mem b hx))

/-- C9: in `getFeedings` and `getDiapers`, a `limit` of `0` is falsy
and therefore ignored, exactly like an absent `limit`: the full sorted
result set is returned, so the two are indistinguishable at the public
interface. -/
theorem limit_zero_is_no_limit (q : FeedingQuery) (qd : DiaperQuery)
    (s1 s2 : DBState) :
    DBState.getFeedings { q with limit := some 0 } s1 =
      DBState.getFeedings { q with limit := none } s1 ∧
    DBState.getDiapers { qd with limit := some 0 } s2 =
      DBState.getDiapers { qd with limit := none } s2 := by
  constructor <;> simp [DBState.getFeedings, DBState.getDiapers]

/-- C7: the `startDate`/`endDate` range filter of `getAll` is
inclusive at both endpoints — a query whose two bounds both equal a
stored record's exact `time` includes that record (with no competing
`type` post-filter or truncation in the query). -/
theorem range_filter_inclusive (s : DBState) (r : StoredFeeding)
    (q : FeedingQuery) (hr : r ∈ s.feedings)
    (hs : q.startDate = some r.timestamp) (he : q.endDate = some r.timestamp)
    (ht : q.type = none) (hl : q.limit = none) :
    r ∈ (DBState.getFeedings q s).1 := by
  simp only [DBState.getFeedings, hs, he, ht, hl]
  rw [mem_jsSort]
  rw [ensureInitS_feedings]
  simp [List.mem_filter, hr]

/-- C9 and C7 exercise the feeding query pipeline; this records the
inclusive-bound fact for the diaper pipeline as well (shared helper,
not a claim theorem). -/
theorem range_filter_inclusive_diaper (s : DBState) (r : StoredDiaper)
    (q : DiaperQuery) (hr : r ∈ s.diapers)
    (hs : q.startDate = some r.timestamp) (he : q.endDate = some r.timestamp)
    (hp : q.hasPee = none) (ho : q.hasPoop = none) (hl : q.limit = none) :
    r ∈ (DBState.getDiapers q s).1 := by
  simp only [DBState.getDiapers, hs, he, hp, ho, hl]
  rw [mem_jsSort]
  rw [ensureInitS_diapers]
  simp [List.mem_filter, hr]

/-- C3: a valid record added through `addFeeding`/`addDiaper` and read
back immediately carries `timestamp`/`date`/`yearMonth` derived
exactly from the supplied `time` — `timestamp` is the instant itself,
`date` its `YYYY-MM-DD` UTC rendering, `yearMonth` the first seven
characters of `date` — independent of whatever `timestamp`/`date`/
`yearMonth` values the caller put on the input object (they are
spread first and then overwritten). -/
theorem addFeeding_ok (s : DBState) (now : Int) (f : FeedingInput) (t : Int)
    (hft : f.time = some t) :
    s.addFeeding now f = .ok (s.nextFeedingId,
      { s.ensureInitS with
        feedings := s.feedings ++
          [{ id := s.nextFeedingId, time := t, type := f.type,
             amount := f.amount, duration := f.duration,
             nextFeedingInterval := f.nextFeedingInterval,
             timezone := f.timezone, timestamp := t,
             date := isoDateOfMillis t,
             yearMonth := strTake (isoDateOfMillis t) 7, createdAt := now }],
        nextFeedingId := s.nextFeedingId + 1 }) := by
  unfold DBState.addFeeding
  rw [hft]
  simp only [ensureInitS_feedings, ensureInitS_nextFeedingId]

theorem addDiaper_ok (s : DBState) (now : Int) (d : DiaperInput) (u : Int)
    (hdt : d.time = some u) :
    s.addDiaper now d = .ok (s.nextDiaperId,
      { s.ensureInitS with
        diapers := s.diapers ++
          [{ id := s.nextDiaperId, time := u, hasPee := d.hasPee,
             hasPoop := d.hasPoop, level := d.level, notes := d.notes,
             timezone := d.timezone, timestamp := u,
             date := isoDateOfMillis u,
             yearMonth := strTake (isoDateOfMillis u) 7, createdAt := now }],
        nextDiaperId := s.nextDiaperId + 1 }) := by
  unfold DBState.addDiaper
  rw [hdt]
  simp only [ensureInitS_diapers, ensureInitS_nextDiaperId]

theorem add_then_get_derives_from_time (s : DBState) (now : Int)
    (f : FeedingInput) (t : Int) (hft : f.time = some t)
    (h0 : 0 ≤ t) (h1 : t < 253402300800000)
    (hidf : ∀ r ∈ s.feedings, r.id ≠ s.nextFeedingId)
    (d : DiaperInput) (u : Int) (hdt : d.time = some u) :
    (∃ fid s1 r, s.addFeeding now f = .ok (fid, s1) ∧
      (s1.getFeeding fid).1 = some r ∧
      r.timestamp = t ∧ r.date = isoDateOfMillis t ∧
      r.yearMonth = strTake (isoDateOfMillis t) 7) ∧
    (∃ did s2 rd, s.addDiaper now d = .ok (did, s2) ∧
      rd ∈ s2.diapers ∧ rd.id = did ∧
      rd.timestamp = u ∧ rd.date = isoDateOfMillis u ∧
      rd.yearMonth = strTake (isoDateOfMillis u) 7) := by
  constructor
  · refine ⟨s.nextFeedingId, _,
      { id := s.nextFeedingId, time := t, type := f.type,
        amount := f.amount, duration := f.duration,
        nextFeedingInterval := f.nextFeedingInterval,
        timezone := f.timezone, timestamp := t,
        date := isoDateOfMillis t,
        yearMonth := strTake (isoDateOfMillis t) 7, createdAt := now },
      addFeeding_ok s now f t hft, ?_, rfl, rfl, rfl⟩
    simp only [DBState.getFeeding, ensureInitS_feedings]
    refine find?_append_last _ _ _ ?_ (by simp)
    intro x hx
    simp only at hx
    simpa using hidf x hx
  · refine ⟨s.nextDiaperId, _,
      { id := s.nextDiaperId, time := u, hasPee := d.hasPee,
        hasPoop := d.hasPoop, level := d.level, notes := d.notes,
        timezone := d.timezone, timestamp := u,
        date := isoDateOfMillis u,
        yearMonth := strTake (isoDateOfMillis u) 7, createdAt := now },
      addDiaper_ok s now d u hdt, ?_, rfl, rfl, rfl, rfl⟩
    simp

/-! ## Claim theorems: medicine dose-taken transition -/

theorem ensureInitS_medicines (s : DBState) :
    (s.ensureInitS).medicines = s.medicines := by
  simp only [DBState.ensureInitS, DBState.initS]
  split
  · rfl
  · split <;> rfl

theorem ensureInitS_nextMedicineId (s : DBState) :
    (s.ensureInitS).nextMedicineId = s.nextMedicineId := by
  simp only [DBState.ensureInitS, DBState.initS]
  split
  · rfl
  · split <;> rfl


theorem addMedicine_ok (s : DBState) (now : Int) (m : MedicineInput) (t : Int)
    (hmt : m.time = some t) :
    s.addMedicine now m = .ok (s.nextMedicineId,
      { s.ensureInitS with
        medicines := s.medicines ++
          [{ id := s.nextMedicineId, time := t, name := m.name,
             dose := m.dose, interval := m.interval, notes := m.notes,
             active := m.active, nextDose := m.nextDose,
             timezone := m.timezone, timestamp := t,
             date := isoDateOfMillis t,
             yearMonth := strTake (isoDateOfMillis t) 7, createdAt := now }],
        nextMedicineId := s.nextMedicineId + 1 }) := by
  unfold DBState.addMedicine
  rw [hmt]
  simp only [ensureInitS_medicines, ensureInitS_nextMedicineId]


theorem updateMedicine_isOk_of_found (s : DBState) (idn : Nat)
    (p : MedicinePatch)
    (h : (s.medicines.find? (fun x => decide (x.id = idn))).isSome) :
    ∃ db1, s.updateMedicine idn p = .ok db1 := by
  obtain ⟨sm, hsm⟩ := Option.isSome_iff_exists.mp h
  simp only [DBState.updateMedicine, ensureInitS_medicines]
  rw [hsm]
  exact ⟨_, rfl⟩

theorem markTaken_eq (now : Int) (id : Int) (t : TrackerState)
    (ls : LocalStore) (db : DBState) (m : MirrorMedicine)
    (hfind : t.medicines.find? (fun x => decide (x.id = id)) = some m)
    (hpos : 0 < m.interval)
    (hdb : t.useIndexedDB = true →
      (db.medicines.find? (fun x => decide (x.id = m.id.toNat))).isSome) :
    ∃ histId ls2 db2,
      FeedingTracker.markMedicineTaken now id t ls db =
      ({ t with medicines :=
          ({ id := histId, timestamp := some now, name := m.name,
             dose := m.dose, interval := 0,
             notes := some (doseNotes m.notes), active := false,
             nextDose := none, timezone := some t.timezone } : MirrorMedicine) ::
          updateNextDoseFirst id (now + intervalMs m.interval) t.medicines },
        ls2, db2) := by
  unfold FeedingTracker.markMedicineTaken
  rw [hfind]
  simp only [hpos, if_true]
  by_cases hb : t.useIndexedDB
  · simp only [hb, if_true]
    obtain ⟨db1, hupd⟩ := updateMedicine_isOk_of_found db m.id.toNat
      { nextDose := some (some (now + intervalMs m.interval)) } (hdb hb)
    rw [hupd]
    unfold insertDoseHistory
    simp only [hb, if_true]
    rw [addMedicine_ok _ now _ now rfl]
    exact ⟨_, _, _, rfl⟩
  · simp only [hb, Bool.false_eq_true, if_false]
    unfold insertDoseHistory
    simp only [hb, Bool.false_eq_true, if_false]
    exact ⟨_, _, _, rfl⟩

theorem find?_split {α : Type} (p : α → Bool) (l : List α) (a : α)
    (h : l.find? p = some a) :
    ∃ l1 l2, l = l1 ++ a :: l2 ∧ ∀ b ∈ l1, p b = false := by
  induction l with
  | nil => simp at h
  | cons x xs ih =>
      by_cases hx : p x
      · rw [List.find?_cons_of_pos _ hx] at h
        obtain rfl : x = a := by simpa using h
        exact ⟨[], xs, rfl, by simp⟩
      · rw [List.find?_cons_of_neg _ (by simpa using hx)] at h
        obtain ⟨l1, l2, hsp, hl1⟩ := ih h
        refine ⟨x :: l1, l2, by rw [hsp, List.cons_append], ?_⟩
        intro b hb
        rcases List.mem_cons.mp hb with rfl | hb2
        · simpa using hx
        · exact hl1 b hb2

theorem updateNextDoseFirst_append (id nd : Int) (l1 l2 : List MirrorMedicine)
    (m : MirrorMedicine) (h1 : ∀ b ∈ l1, b.id ≠ id) (hm : m.id = id) :
    updateNextDoseFirst id nd (l1 ++ m :: l2) =
      l1 ++ ({ m with nextDose := some nd } : MirrorMedicine) :: l2 := by
  induction l1 with
  | nil => simp [updateNextDoseFirst, hm]
  | cons x xs ih =>
      have hx : x.id ≠ id := h1 x (List.mem_cons_self x xs)
      simp only [List.cons_append, updateNextDoseFirst, hx, if_false, List.append_eq]
      rw [ih (fun b hb => h1 b (List.mem_cons_of_mem x hb))]

/-- C8: when a medicine with a positive interval (8 hours) and
`active = true` receives `markMedicineTaken`, a new history record
with `interval = 0` and `active = false` is prepended to the mirror,
the found medicine's `nextDose` is set to exactly 8 hours
(28800000 ms) after the taken-time `now`, and every other medicine
record is carried over unchanged (the split lists `l1`/`l2` around the
updated record are preserved verbatim). The hypothesis `hdb` is the
mirror-backend consistency invariant at the transition: in primary
mode the medicine found in the mirror also exists in the backend, so
the awaited `db.updateMedicine` resolves instead of aborting the
transition through the outer catch. -/
theorem medicine_mark_taken_8h (now : Int) (id : Int) (t : TrackerState)
    (ls : LocalStore) (db : DBState) (m : MirrorMedicine)
    (hfind : t.medicines.find? (fun x => decide (x.id = id)) = some m)
    (hint : m.interval = 8) (hact : m.active = true)
    (hdb : t.useIndexedDB = true →
      (db.medicines.find? (fun x => decide (x.id = m.id.toNat))).isSome) :
    ∃ hist rest,
      (FeedingTracker.markMedicineTaken now id t ls db).1.medicines = hist :: rest ∧
      hist.interval = 0 ∧ hist.active = false ∧ hist.timestamp = some now ∧
      ∃ l1 l2, t.medicines = l1 ++ m :: l2 ∧ (∀ b ∈ l1, b.id ≠ id) ∧
        rest = l1 ++ ({ m with nextDose := some (now + 28800000) } : MirrorMedicine) :: l2 := by
  have hpos : 0 < m.interval := by rw [hint]; norm_num
  obtain ⟨histId, ls2, db2, heq⟩ := markTaken_eq now id t ls db m hfind hpos hdb
  obtain ⟨l1, l2, hsp, hl1⟩ := find?_split _ _ _ hfind
  have hmid : m.id = id := by simpa using List.find?_some hfind
  have h1 : ∀ b ∈ l1, b.id ≠ id := fun b hb => by simpa using hl1 b hb
  have hmi : intervalMs m.interval = 28800000 := by
    rw [hint]; unfold intervalMs; norm_num
  refine ⟨{ id := histId, timestamp := some now, name := m.name,
            dose := m.dose, interval := 0, notes := some (doseNotes m.notes),
            active := false, nextDose := none, timezone := some t.timezone },
          updateNextDoseFirst id (now + intervalMs m.interval) t.medicines,
          ?_, rfl, rfl, rfl, l1, l2, hsp, h1, ?_⟩
  · rw [heq]
  · rw [hmi, hsp, updateNextDoseFirst_append id _ l1 l2 m h1 hmid]

/-! ## Claim theorems: migration idempotence and failure modes -/

theorem darkModeStep_ok_eq (v : Option String) (h : darkModeOkV v = true)
    (now : Int) (db : DBState) :
    darkModeStep v now db =
      (false,
        match v with
        | none => db
        | some s =>
            if s.isEmpty then db
            else db.setMetadataS "darkMode" (.boolV ((jsonBool s).getD false)) now) := by
  cases v with
  | none => rfl
  | some s =>
      unfold darkModeOkV at h
      unfold darkModeStep
      by_cases he : s.isEmpty
      · simp [he]
      · simp only [he, Bool.false_or] at h
        rcases hj : jsonBool s with _ | b
        · rw [hj] at h; simp at h
        · simp [he, hj]

theorem migrateTry_success (env : MigrateEnv) (ls : LocalStore) (db : DBState)
    (hinit : env.initThrows = false) (hdm : darkModeOkV ls.darkMode = true) :
    ∃ fc dc errs db3,
      migrateTry env ls db =
        ({ status := .success, feedings := fc, diapers := dc, errors := errs },
         { ls with migrationFlag := some "true", feedings := none, diapers := none },
         db3) := by
  unfold migrateTry
  rw [hinit]
  simp only [Bool.false_eq_true, if_false, darkModeStep_ok_eq ls.darkMode hdm]
  exact ⟨_, _, _, _, rfl⟩

/-- C1: from a state with unmigrated flat data (flag unset, data
present) and no platform failure, the first `migrate()` returns
status `success`, and a second call returns status `already_migrated`
while leaving the localStorage and RecordStore states exactly as the
first call left them — in particular the record counts in the
RecordStore after the second call equal those after the first (no
record is inserted twice). -/
theorem migrate_idempotent (env env2 : MigrateEnv) (ls : LocalStore) (db : DBState)
    (hflag : StorageMigration.hasMigrated ls = false)
    (hdata : StorageMigration.hasLocalStorageData ls = true)
    (hinit : env.initThrows = false) (hbk : env.backupThrows = false)
    (hdm : darkModeOkV ls.darkMode = true) :
    ∃ r1 ls1 db1,
      StorageMigration.migrate env ls db = (.ok r1, ls1, db1) ∧
      r1.status = .success ∧
      StorageMigration.migrate env2 ls1 db1 =
        (.ok { status := .alreadyMigrated, feedings := 0, diapers := 0, errors := [] },
         ls1, db1) := by
  unfold StorageMigration.migrate
  rw [hflag, hdata, hbk]
  simp only [Bool.false_eq_true, if_false, not_true, ite_false]
  obtain ⟨fc, dc, errs, db3, htry⟩ := migrateTry_success env
    { ls with backup := some ⟨env.now, ls.feedings, ls.diapers, ls.timezone,
        ls.darkMode, ls.defaultInterval, ls.nextFeedingTime⟩ } db hinit hdm
  rw [htry]
  refine ⟨_, _, _, rfl, rfl, ?_⟩
  simp [StorageMigration.hasMigrated]

theorem migrateTry_initThrows (env : MigrateEnv) (ls : LocalStore) (db : DBState)
    (h : env.initThrows = true) :
    migrateTry env ls db =
      ({ status := .failed, feedings := 0, diapers := 0, errors := ["migration"] },
       ls, db) := by
  unfold migrateTry
  rw [h]
  simp

theorem migrate_unmigrated_eq (env : MigrateEnv) (ls : LocalStore) (db : DBState)
    (hflag : StorageMigration.hasMigrated ls = false)
    (hdata : StorageMigration.hasLocalStorageData ls = true)
    (hbk : env.backupThrows = false) :
    StorageMigration.migrate env ls db =
      (.ok (migrateTry env { ls with backup := some ⟨env.now, ls.feedings,
            ls.diapers, ls.timezone, ls.darkMode, ls.defaultInterval,
            ls.nextFeedingTime⟩ } db).1,
       (migrateTry env { ls with backup := some ⟨env.now, ls.feedings,
            ls.diapers, ls.timezone, ls.darkMode, ls.defaultInterval,
            ls.nextFeedingTime⟩ } db).2.1,
       (migrateTry env { ls with backup := some ⟨env.now, ls.feedings,
            ls.diapers, ls.timezone, ls.darkMode, ls.defaultInterval,
            ls.nextFeedingTime⟩ } db).2.2) := by
  unfold StorageMigration.migrate
  rw [hflag, hdata, hbk]
  simp

/-- C4 (amended): when `db.init()` throws inside `migrate()`, the
call returns a result with status `failed` without throwing and
without setting the migrated flag, so a later call retries from the
unmigrated state (and succeeds once the failure is gone); but when the
backup-creation `localStorage.setItem` throws, `migrate()` propagates
the exception to the caller instead of returning `failed` — the
`createBackup()` call sits outside the `try` block — with the flag
likewise still unset. -/
theorem migrate_failed_before_flag (ls : LocalStore) (db : DBState)
    (now now2 : Int) (tz tz2 : String)
    (hflag : StorageMigration.hasMigrated ls = false)
    (hdata : StorageMigration.hasLocalStorageData ls = true)
    (hdm : darkModeOkV ls.darkMode = true) :
    (∃ r ls1,
      StorageMigration.migrate ⟨now, tz, true, false⟩ ls db = (.ok r, ls1, db) ∧
      r.status = .failed ∧ StorageMigration.hasMigrated ls1 = false ∧
      ∃ r2 ls2 db2,
        StorageMigration.migrate ⟨now2, tz2, false, false⟩ ls1 db =
          (.ok r2, ls2, db2) ∧ r2.status = .success) ∧
    StorageMigration.migrate ⟨now, tz, false, true⟩ ls db =
      (.error "QuotaExceededError", ls, db) := by
  constructor
  · rw [migrate_unmigrated_eq _ _ _ hflag hdata rfl,
        migrateTry_initThrows _ _ _ rfl]
    refine ⟨{ status := .failed, feedings := 0, diapers := 0, errors := ["migration"] },
      { ls with backup := some ⟨now, ls.feedings, ls.diapers, ls.timezone,
          ls.darkMode, ls.defaultInterval, ls.nextFeedingTime⟩ },
      rfl, rfl, hflag, ?_⟩
    rw [migrate_unmigrated_eq ⟨now2, tz2, false, false⟩
      { ls with backup := some ⟨now, ls.feedings, ls.diapers, ls.timezone,
          ls.darkMode, ls.defaultInterval, ls.nextFeedingTime⟩ } db hflag hdata rfl]
    obtain ⟨fc, dc, errs, db3, htry⟩ := migrateTry_success ⟨now2, tz2, false, false⟩
      { { ls with backup := some ⟨now, ls.feedings, ls.diapers, ls.timezone,
            ls.darkMode, ls.defaultInterval, ls.nextFeedingTime⟩ } with
          backup := some ⟨now2, ls.feedings, ls.diapers, ls.timezone,
            ls.darkMode, ls.defaultInterval, ls.nextFeedingTime⟩ } db rfl hdm
    rw [htry]
    exact ⟨_, _, _, rfl, rfl⟩
  · unfold StorageMigration.migrate
    rw [hflag, hdata]
    simp

/-! ## Claim theorems: flat-store load and startup backend selection -/

theorem loadColl_ok {α : Type} (v : Option (FlatVal α)) (old : List α)
    (h : v ≠ some .corrupt) :
    loadColl v old = .ok (flatLoaded v old) := by
  match v with
  | none => rfl
  | some .emptyStr => rfl
  | some .emptyArr => rfl
  | some (.items l) => rfl
  | some .corrupt => exact absurd rfl h

theorem loadFromLocalStorage_ok (ls : LocalStore) (t : TrackerState)
    (hf : ls.feedings ≠ some .corrupt) (hd : ls.diapers ≠ some .corrupt)
    (hm : ls.medicines ≠ some .corrupt) :
    loadFromLocalStorage ls t = .ok
      { t with feedings := flatLoaded ls.feedings t.feedings,
               diapers := flatLoaded ls.diapers t.diapers,
               medicines := flatLoaded ls.medicines t.medicines } := by
  unfold loadFromLocalStorage
  rw [loadColl_ok _ _ hf, loadColl_ok _ _ hd, loadColl_ok _ _ hm]

/-- C6 (amended): a `loadFromLocalStorage` collection read returns the
previous (initially empty) mirror for an absent key and never throws
for any parseable or absent value — but an unparseable stored value
makes `JSON.parse` throw out of the whole load instead of yielding an
empty array. -/
theorem flatstore_load_behavior :
    (∀ (ls : LocalStore) (tz : String),
      ls.feedings = none → ls.diapers = none → ls.medicines = none →
      ∃ t1, loadFromLocalStorage ls (initialTracker tz) = .ok t1 ∧
        t1.feedings = [] ∧ t1.diapers = [] ∧ t1.medicines = []) ∧
    (∀ (α : Type) (v : Option (FlatVal α)) (old : List α),
      v ≠ some .corrupt → loadColl v old = .ok (flatLoaded v old)) ∧
    (∀ (ls : LocalStore) (t0 : TrackerState), ls.feedings = some .corrupt →
      loadFromLocalStorage ls t0 = .error "SyntaxError: JSON.parse") := by
  refine ⟨?_, ?_, ?_⟩
  · intro ls tz h1 h2 h3
    rw [loadFromLocalStorage_ok ls _ (by rw [h1]; simp) (by rw [h2]; simp)
      (by rw [h3]; simp)]
    exact ⟨_, rfl, by rw [h1]; rfl, by rw [h2]; rfl, by rw [h3]; rfl⟩
  · exact fun α v old h => loadColl_ok v old h
  · intro ls t0 h
    unfold loadFromLocalStorage
    rw [h]
    rfl

/-- C6 counterexample: a corrupt stored value under the `feedings` key
makes the fallback load throw a parse error; the claim's promise that
a corrupt value also yields an empty array does not hold on the code. -/
theorem flatstore_corrupt_throws_cx :
    loadFromLocalStorage { feedings := some .corrupt } (initialTracker "UTC") =
      .error "SyntaxError: JSON.parse" := rfl

theorem ensureInitS_idem (s : DBState) :
    (s.ensureInitS).ensureInitS = s.ensureInitS := by
  by_cases h : s.isReady
  · simp [DBState.ensureInitS, h]
  · by_cases h2 : s.dbOpen
    · simp [DBState.ensureInitS, DBState.initS, h, h2]
    · simp [DBState.ensureInitS, DBState.initS, h, h2]

theorem loadFromStorage_eq (db : DBState) (t : TrackerState) :
    loadFromStorage db t =
      ({ t with
          feedings := (jsSort (fun a b => tsLe false a.timestamp b.timestamp)
            db.feedings).map mirrorOfStoredFeeding,
          diapers := (jsSort (fun a b => tsLe false a.timestamp b.timestamp)
            db.diapers).map mirrorOfStoredDiaper,
          medicines := (jsSort (fun a b => tsLe false a.timestamp b.timestamp)
            db.medicines).map mirrorOfStoredMedicine },
       db.ensureInitS) := by
  unfold loadFromStorage DBState.getFeedings DBState.getDiapers DBState.getMedicines
  simp only [ensureInitS_feedings, ensureInitS_diapers, ensureInitS_medicines,
    ensureInitS_idem]

theorem migrate_ok_of_no_backupThrow (env : MigrateEnv) (ls : LocalStore)
    (db : DBState) (hbk : env.backupThrows = false) :
    ∃ r ls1 db1, StorageMigration.migrate env ls db = (.ok r, ls1, db1) := by
  unfold StorageMigration.migrate
  rw [hbk]
  split_ifs <;> first
    | exact ⟨_, _, _, rfl⟩
    | exact (by assumption : False).elim

theorem migrate_backupThrows_error (env : MigrateEnv) (ls : LocalStore)
    (db : DBState) (hflag : StorageMigration.hasMigrated ls = false)
    (hdata : StorageMigration.hasLocalStorageData ls = true)
    (hbk : env.backupThrows = true) :
    StorageMigration.migrate env ls db = (.error "QuotaExceededError", ls, db) := by
  unfold StorageMigration.migrate
  rw [hflag, hdata, hbk]
  simp

/-- C2 (amended): at startup, when the RecordStore opens and
`migrate()` returns a result value (even `failed` — the value is only
informational), the controller sets primary mode (`useIndexedDB`,
storage type `indexeddb`) and fills every modelled mirror collection
from the RecordStore with the backend-to-canonical field translation;
but when `migrate()` itself rejects — the backup `setItem` throwing
with unmigrated flat data present — the single catch of
`FeedingTracker.init` fires even though `RecordStore.init()`
succeeded, and the controller ends up in fallback mode; and when
`RecordStore.init()` fails, the controller sets fallback mode
(`localstorage`) and fills the mirrors from the FlatStore instead,
returning normally — the init failure is not propagated to the
caller. -/
theorem startup_backend_selection (env : TrackerEnv) (ls : LocalStore) (db : DBState)
    (hf : ls.feedings ≠ some .corrupt) (hd : ls.diapers ≠ some .corrupt)
    (hm : ls.medicines ≠ some .corrupt) :
    (env.dbAvail = true → env.backupThrows = false →
      ∃ t1 ls1 db1, FeedingTracker.init env ls db = .ok (t1, ls1, db1) ∧
        t1.useIndexedDB = true ∧ t1.storageType = "indexeddb" ∧
        t1.feedings = (jsSort (fun a b => tsLe false a.timestamp b.timestamp)
            db1.feedings).map mirrorOfStoredFeeding ∧
        t1.diapers = (jsSort (fun a b => tsLe false a.timestamp b.timestamp)
            db1.diapers).map mirrorOfStoredDiaper ∧
        t1.medicines = (jsSort (fun a b => tsLe false a.timestamp b.timestamp)
            db1.medicines).map mirrorOfStoredMedicine ∧
        ∃ mres dbMid,
          StorageMigration.migrate ⟨env.now, env.tz, false, env.backupThrows⟩
            ls db.initS = (.ok mres, ls1, dbMid) ∧ db1 = dbMid.ensureInitS) ∧
    (env.dbAvail = true → env.backupThrows = true →
      StorageMigration.hasMigrated ls = false →
      StorageMigration.hasLocalStorageData ls = true →
      ∃ t1, FeedingTracker.init env ls db = .ok (t1, ls, db.initS) ∧
        t1.useIndexedDB = false ∧ t1.storageType = "localstorage" ∧
        t1.feedings = flatLoaded ls.feedings [] ∧
        t1.diapers = flatLoaded ls.diapers [] ∧
        t1.medicines = flatLoaded ls.medicines []) ∧
    (env.dbAvail = false →
      ∃ t1, FeedingTracker.init env ls db = .ok (t1, ls, db) ∧
        t1.useIndexedDB = false ∧ t1.storageType = "localstorage" ∧
        t1.feedings = flatLoaded ls.feedings [] ∧
        t1.diapers = flatLoaded ls.diapers [] ∧
        t1.medicines = flatLoaded ls.medicines []) := by
  refine ⟨?_, ?_, ?_⟩
  · intro ha hbk
    obtain ⟨mres, ls1, dbMid, hm2⟩ := migrate_ok_of_no_backupThrow
      ⟨env.now, env.tz, false, env.backupThrows⟩ ls db.initS hbk
    unfold FeedingTracker.init
    rw [ha]
    simp only [if_true]
    rw [hm2]
    simp only [loadFromStorage_eq]
    refine ⟨_, ls1, dbMid.ensureInitS, rfl, rfl, rfl, ?_, ?_, ?_,
      mres, dbMid, rfl, rfl⟩
    · rw [ensureInitS_feedings]
    · rw [ensureInitS_diapers]
    · rw [ensureInitS_medicines]
  · intro ha hbk hflag hdata
    unfold FeedingTracker.init
    rw [ha]
    simp only [if_true]
    rw [migrate_backupThrows_error ⟨env.now, env.tz, false, env.backupThrows⟩
      ls db.initS hflag hdata hbk]
    simp only [fallbackLoad, loadFromLocalStorage_ok ls _ hf hd hm]
    exact ⟨_, rfl, rfl, rfl, rfl, rfl, rfl⟩
  · intro hb
    unfold FeedingTracker.init
    rw [hb]
    simp only [Bool.false_eq_true, if_false]
    unfold fallbackLoad
    rw [loadFromLocalStorage_ok ls _ hf hd hm]
    exact ⟨_, rfl, rfl, rfl, rfl, rfl, rfl⟩

/-! ## Claim theorems: diaper construction paths -/

theorem importCommitLocal_head_diaper (now : Int) (acc : CsvAcc)
    (t : TrackerState) (ls : LocalStore) (d : DiaperInput)
    (rest : List DiaperInput) (hacc : acc.diapers = d :: rest) :
    ∃ md, md ∈ (importCommitLocal now acc t ls).1.diapers ∧
      md.hasPee = d.hasPee ∧ md.hasPoop = d.hasPoop ∧ md.level = d.level := by
  refine ⟨⟨now + ((0 : Nat) : Int) + 10000, d.time, d.hasPee, d.hasPoop,
    d.level, d.notes, d.timezone⟩, ?_, rfl, rfl, rfl⟩
  unfold importCommitLocal
  simp only [hacc, List.enum_cons, mem_jsSort, List.mem_append, List.map_cons]
  left
  exact List.mem_cons_self _ _

/-- C5 (amended): only the interactive `addDiaper` path rejects a
diaper with `hasPee = false` and `hasPoop = false`; the CSV import and
the migration transform perform no such validation — an imported row
whose flag cells are not the affirmative literals yields a both-false
record that is committed to the mirror, and a both-false flat record
is transformed and inserted into the RecordStore unchanged. -/
theorem diaper_bothFalse_only_userAdd_rejects :
    (∀ (now : Int) (timeInput : Option Int) (notes : String)
        (t : TrackerState) (ls : LocalStore) (db : DBState),
      FeedingTracker.addDiaper now timeInput false false notes t ls db =
        .ok (t, ls, db)) ∧
    (∀ (pd : String → Option Int) (tz : String) (vals : List String),
      vals.getD 2 "" ≠ "Sí" → vals.getD 2 "" ≠ "Yes" →
      vals.getD 3 "" ≠ "Sí" → vals.getD 3 "" ≠ "Yes" →
      (csvDiaper pd tz vals).hasPee = false ∧
      (csvDiaper pd tz vals).hasPoop = false) ∧
    (∀ (now : Int) (acc : CsvAcc) (t : TrackerState) (ls : LocalStore)
        (d : DiaperInput) (rest : List DiaperInput),
      acc.diapers = d :: rest →
      ∃ md, md ∈ (importCommitLocal now acc t ls).1.diapers ∧
        md.hasPee = d.hasPee ∧ md.hasPoop = d.hasPoop) ∧
    (∀ (now : Int) (tz : String) (old : MirrorDiaper) (u : Int)
        (db : DBState), old.timestamp = some u →
      ∃ did db2 rd,
        db.addDiaper now (StorageMigration.transformDiaper tz old) =
          .ok (did, db2) ∧
        rd ∈ db2.diapers ∧ rd.hasPee = old.hasPee ∧ rd.hasPoop = old.hasPoop) := by
  refine ⟨?_, ?_, ?_, ?_⟩
  · intro now timeInput notes t ls db
    simp [FeedingTracker.addDiaper]
  · intro pd tz vals h1 h2 h3 h4
    constructor
    · show (decide (vals.getD 2 "" = "Sí") || decide (vals.getD 2 "" = "Yes")) = false
      rw [decide_eq_false h1, decide_eq_false h2]
      rfl
    · show (decide (vals.getD 3 "" = "Sí") || decide (vals.getD 3 "" = "Yes")) = false
      rw [decide_eq_false h3, decide_eq_false h4]
      rfl
  · intro now acc t ls d rest hacc
    obtain ⟨md, hmem, hp, hq, _⟩ := importCommitLocal_head_diaper now acc t ls d rest hacc
    exact ⟨md, hmem, hp, hq⟩
  · intro now tz old u db hu
    have h : (StorageMigration.transformDiaper tz old).time = some u := by
      simp [StorageMigration.transformDiaper, hu]
    refine ⟨db.nextDiaperId, _,
      ⟨db.nextDiaperId, u, old.hasPee, old.hasPoop, old.level,
        some (jsOrS old.notes ""), some (jsOrS old.timezone tz), u,
        isoDateOfMillis u, strTake (isoDateOfMillis u) 7, now⟩,
      addDiaper_ok db now _ u h, ?_, rfl, rfl⟩
    simp [StorageMigration.transformDiaper]

/-- C5 counterexample: a CSV row whose pee and poop cells are both the
exported negative literal imports as a diaper record with both flags
false, and the commit adds it to the mirror — refuting the claim that
no construction path ever stores such a record. -/
theorem diaper_bothFalse_import_cx :
    ∃ md ∈ (FeedingTracker.importCSVLocal (fun _ => some 1710498600000)
      1700000000000
      "TIPO,FECHA,DETALLE1,DETALLE2,DETALLE3,NOTAS,ZONA_HORARIA\nPANAL,2024-03-15T10:30:00.000Z,No,No,2,,UTC"
      (initialTracker "UTC") {}).1.diapers,
      md.hasPee = false ∧ md.hasPoop = false := by decide

/-! ## Counterexamples and concrete witnesses -/

/-- C4 counterexample: with unmigrated flat data present and the
backup write failing, `migrate()` propagates the exception instead of
returning a `failed` result — the claim's backup-throw case does not
hold on the code (the `createBackup()` call sits outside the
`try` block). -/
theorem migrate_backupThrow_propagates_cx :
    StorageMigration.migrate ⟨0, "UTC", false, true⟩
      { feedings := some (.items [⟨1, some 1710498600000, "bottle", some 120,
          none, some ((7 : Rat) / 2), some "UTC"⟩]) } {} =
      (.error "QuotaExceededError",
       { feedings := some (.items [⟨1, some 1710498600000, "bottle", some 120,
           none, some ((7 : Rat) / 2), some "UTC"⟩]) }, {}) := rfl

theorem migrate_idempotent_witness :
    StorageMigration.hasMigrated
        { feedings := some (.items [⟨1, some 1710498600000, "bottle", some 120,
            none, some ((7 : Rat) / 2), some "UTC"⟩]) } = false ∧
    StorageMigration.hasLocalStorageData
        { feedings := some (.items [⟨1, some 1710498600000, "bottle", some 120,
            none, some ((7 : Rat) / 2), some "UTC"⟩]) } = true ∧
    (∃ r1 ls1 db1,
      StorageMigration.migrate ⟨0, "UTC", false, false⟩
        { feedings := some (.items [⟨1, some 1710498600000, "bottle", some 120,
            none, some ((7 : Rat) / 2), some "UTC"⟩]) } {} = (.ok r1, ls1, db1) ∧
      r1.status = .success ∧
      StorageMigration.migrate ⟨86400000, "UTC", false, false⟩ ls1 db1 =
        (.ok { status := .alreadyMigrated, feedings := 0, diapers := 0,
               errors := [] }, ls1, db1)) :=
  ⟨by decide, by decide,
    migrate_idempotent ⟨0, "UTC", false, false⟩ ⟨86400000, "UTC", false, false⟩
      _ {} (by decide) (by decide) rfl rfl (by decide)⟩

/-- C2 counterexample: with unmigrated flat data present and the
backup `setItem` failing, `RecordStore.init()` succeeds yet
`migrate()` rejects, the catch in `FeedingTracker.init` fires, and the
controller ends the startup in localStorage fallback mode — refuting
the claim that a successful `RecordStore.init()` always yields
`mode = primary` with `migrate()` merely best-effort. -/
theorem startup_fallback_despite_init_success_cx :
    (FeedingTracker.init ⟨0, "UTC", true, true⟩
        { diapers := some (.items [⟨2, some 1710498600000, true, true, 2,
            some "", some "UTC"⟩]) } {}).toOption.map
      (fun r => (r.1.useIndexedDB, r.1.storageType)) =
      some (false, "localstorage") := rfl

theorem startup_backend_selection_witness :
    (({} : LocalStore).feedings ≠ some .corrupt) ∧
    ((∀ h : (⟨0, "UTC", true, false⟩ : TrackerEnv).dbAvail = true,
        ∀ h2 : (⟨0, "UTC", true, false⟩ : TrackerEnv).backupThrows = false,
        ∃ t1 ls1 db1,
          FeedingTracker.init ⟨0, "UTC", true, false⟩ {} {} =
            .ok (t1, ls1, db1) ∧
          t1.useIndexedDB = true ∧ t1.storageType = "indexeddb" ∧
          t1.feedings = (jsSort (fun a b => tsLe false a.timestamp b.timestamp)
              db1.feedings).map mirrorOfStoredFeeding ∧
          t1.diapers = (jsSort (fun a b => tsLe false a.timestamp b.timestamp)
              db1.diapers).map mirrorOfStoredDiaper ∧
          t1.medicines = (jsSort (fun a b => tsLe false a.timestamp b.timestamp)
              db1.medicines).map mirrorOfStoredMedicine ∧
          ∃ mres dbMid,
            StorageMigration.migrate ⟨0, "UTC", false, false⟩
              {} (DBState.initS {}) = (.ok mres, ls1, dbMid) ∧
            db1 = dbMid.ensureInitS) ∧
      (∀ h : (⟨0, "UTC", true, false⟩ : TrackerEnv).dbAvail = true,
        ∀ h2 : (⟨0, "UTC", true, false⟩ : TrackerEnv).backupThrows = true,
        StorageMigration.hasMigrated ({} : LocalStore) = false →
        StorageMigration.hasLocalStorageData ({} : LocalStore) = true →
        ∃ t1, FeedingTracker.init ⟨0, "UTC", true, false⟩ {} {} =
            .ok (t1, {}, DBState.initS {}) ∧
          t1.useIndexedDB = false ∧ t1.storageType = "localstorage" ∧
          t1.feedings = flatLoaded ({} : LocalStore).feedings [] ∧
          t1.diapers = flatLoaded ({} : LocalStore).diapers [] ∧
          t1.medicines = flatLoaded ({} : LocalStore).medicines []) ∧
      (∀ h : (⟨0, "UTC", true, false⟩ : TrackerEnv).dbAvail = false,
        ∃ t1, FeedingTracker.init ⟨0, "UTC", true, false⟩ {} {} =
            .ok (t1, {}, {}) ∧
          t1.useIndexedDB = false ∧ t1.storageType = "localstorage" ∧
          t1.feedings = flatLoaded ({} : LocalStore).feedings [] ∧
          t1.diapers = flatLoaded ({} : LocalStore).diapers [] ∧
          t1.medicines = flatLoaded ({} : LocalStore).medicines [])) :=
  ⟨by decide,
    startup_backend_selection ⟨0, "UTC", true, false⟩ {} {}
      (by decide) (by decide) (by decide)⟩

theorem add_then_get_witness :
    isoDateOfMillis 1710498600000 = "2024-03-15" ∧
    strTake (isoDateOfMillis 1710498600000) 7 = "2024-03" ∧
    ((∃ fid s1 r,
        DBState.addFeeding 1700000000000
          { time := some 1710498600000, type := "bottle", amount := some 120,
            duration := none, nextFeedingInterval := some ((7 : Rat) / 2),
            timezone := "UTC", suppliedTimestamp := some "junk",
            suppliedDate := some "1999-12-31",
            suppliedYearMonth := some "1999-12" } {} = .ok (fid, s1) ∧
        (s1.getFeeding fid).1 = some r ∧
        r.timestamp = 1710498600000 ∧
        r.date = isoDateOfMillis 1710498600000 ∧
        r.yearMonth = strTake (isoDateOfMillis 1710498600000) 7) ∧
      (∃ did s2 rd,
        DBState.addDiaper 1700000000000
          { time := some 1710498600000, hasPee := true, hasPoop := false,
            level := 2, notes := some "", timezone := some "UTC",
            suppliedTimestamp := some "junk" } {} = .ok (did, s2) ∧
        rd ∈ s2.diapers ∧ rd.id = did ∧
        rd.timestamp = 1710498600000 ∧
        rd.date = isoDateOfMillis 1710498600000 ∧
        rd.yearMonth = strTake (isoDateOfMillis 1710498600000) 7)) :=
  ⟨by decide, by decide,
    add_then_get_derives_from_time {} 1700000000000 _ 1710498600000 rfl
      (by decide) (by decide) (by simp) _ 1710498600000 rfl⟩

theorem migrate_failed_before_flag_witness :
    StorageMigration.hasMigrated
        { diapers := some (.items [⟨2, some 1710498600000, true, true, 2,
            some "", some "UTC"⟩]) } = false ∧
    ((∃ r ls1,
        StorageMigration.migrate ⟨0, "UTC", true, false⟩
          { diapers := some (.items [⟨2, some 1710498600000, true, true, 2,
              some "", some "UTC"⟩]) } {} = (.ok r, ls1, {}) ∧
        r.status = .failed ∧ StorageMigration.hasMigrated ls1 = false ∧
        ∃ r2 ls2 db2,
          StorageMigration.migrate ⟨86400000, "UTC", false, false⟩ ls1 {} =
            (.ok r2, ls2, db2) ∧ r2.status = .success) ∧
      StorageMigration.migrate ⟨0, "UTC", false, true⟩
        { diapers := some (.items [⟨2, some 1710498600000, true, true, 2,
            some "", some "UTC"⟩]) } {} =
        (.error "QuotaExceededError",
         { diapers := some (.items [⟨2, some 1710498600000, true, true, 2,
             some "", some "UTC"⟩]) }, {})) :=
  ⟨by decide,
    migrate_failed_before_flag _ {} 0 86400000 "UTC" "UTC"
      (by decide) (by decide) (by decide)⟩

theorem diaper_bothFalse_witness :
    FeedingTracker.addDiaper 0 (some 1710498600000) false false "nota"
        (initialTracker "UTC") {} {} =
      .ok (initialTracker "UTC", {}, {}) ∧
    (csvDiaper (fun _ => some 1710498600000) "UTC"
        ["PANAL", "x", "No", "No", "2", "", "UTC"]).hasPee = false :=
  ⟨diaper_bothFalse_only_userAdd_rejects.1 0 (some 1710498600000) "nota"
      (initialTracker "UTC") {} {},
   (diaper_bothFalse_only_userAdd_rejects.2.1 (fun _ => some 1710498600000)
      "UTC" ["PANAL", "x", "No", "No", "2", "", "UTC"]
      (by decide) (by decide) (by decide) (by decide)).1⟩

theorem flatstore_load_witness :
    (∃ t1, loadFromLocalStorage {} (initialTracker "UTC") = .ok t1 ∧
      t1.feedings = [] ∧ t1.diapers = [] ∧ t1.medicines = []) ∧
    loadFromLocalStorage { feedings := some .corrupt }
        (initialTracker "America/New_York") = .error "SyntaxError: JSON.parse" :=
  ⟨flatstore_load_behavior.1 {} "UTC" rfl rfl rfl,
   flatstore_load_behavior.2.2 { feedings := some .corrupt }
     (initialTracker "America/New_York") rfl⟩

theorem range_filter_inclusive_witness :
    (⟨1, 1710498600000, "bottle", some 120, none, some (4 : Rat), "UTC",
        1710498600000, "2024-03-15", "2024-03", 1700000000000⟩ : StoredFeeding) ∈
      (DBState.getFeedings
        { startDate := some 1710498600000, endDate := some 1710498600000 }
        { feedings := [⟨1, 1710498600000, "bottle", some 120, none,
            some (4 : Rat), "UTC", 1710498600000, "2024-03-15",
            "2024-03", 1700000000000⟩] }).1 :=
  range_filter_inclusive _ _ _ (by decide) rfl rfl rfl rfl

theorem medicine_mark_taken_witness :
    ([⟨5, some 1710000000000, "Ibuprofeno", "5ml", 8, some "fiebre", true,
        some 1710028800000, some "UTC"⟩] : List MirrorMedicine).find?
        (fun x => decide (x.id = 5)) =
      some ⟨5, some 1710000000000, "Ibuprofeno", "5ml", 8, some "fiebre", true,
        some 1710028800000, some "UTC"⟩ ∧
    (∃ hist rest,
      (FeedingTracker.markMedicineTaken 1710030000000 5
          { medicines := [⟨5, some 1710000000000, "Ibuprofeno", "5ml", 8,
              some "fiebre", true, some 1710028800000, some "UTC"⟩],
            timezone := "UTC", useIndexedDB := true } {}
          { medicines := [⟨5, 1710000000000, "Ibuprofeno", "5ml", 8, "fiebre",
              true, some 1710028800000, "UTC", 1710000000000, "2024-03-09",
              "2024-03", 1700000000000⟩],
            nextMedicineId := 6 }).1.medicines = hist :: rest ∧
      hist.interval = 0 ∧ hist.active = false ∧
      hist.timestamp = some 1710030000000 ∧
      ∃ l1 l2,
        ([⟨5, some 1710000000000, "Ibuprofeno", "5ml", 8, some "fiebre", true,
            some 1710028800000, some "UTC"⟩] : List MirrorMedicine) =
          l1 ++ ⟨5, some 1710000000000, "Ibuprofeno", "5ml", 8, some "fiebre",
            true, some 1710028800000, some "UTC"⟩ :: l2 ∧
        (∀ b ∈ l1, b.id ≠ 5) ∧
        rest = l1 ++ (⟨5, some 1710000000000, "Ibuprofeno", "5ml", 8,
          some "fiebre", true, some (1710030000000 + 28800000),
          some "UTC"⟩ : MirrorMedicine) :: l2) :=
  ⟨by decide,
    medicine_mark_taken_8h 1710030000000 5 _ {} _ _ (by decide) (by decide) rfl
      (by decide)⟩
